import Mathlib

/-!
Shallow embedding of the cross-asset model builder
(`OREData/ored/model/crossassetmodelbuilder.cpp`).

The orchestrator's build sequence `CrossAssetModelBuilder::buildModel` is
embedded as a pure function from the configuration (`CrossAssetModelData`)
and an environment supplying the numeric calibration residuals
(`MarketEnv`, standing for the market data consumed by the sub-builders and
the optimizer results) to either a `BuildError` or the populated
calibration-error vectors, together with a trace of build events recording
the order of the steps performed.  The lazy-recalculation layer
(`model()` / error accessors / `performCalculations` /
`requiresRecalibration`) is embedded as a transition function on an
explicit builder state.
-/

namespace Engine

/-- Calibration strategy of a factor (ORE `CalibrationType`). -/
inductive CalibrationType where
  | bootstrap
  | bestFit
  | none
  deriving DecidableEq, Repr

/-- Time-shape of a calibratable parameter (ORE `ParamType`). -/
inductive ParamType where
  | constant
  | piecewise
  deriving DecidableEq, Repr

/-- Per-currency rate factor configuration (`IrLgmData`, the fields the
orchestrator reads). -/
structure IrLgmData where
  ccy : String
  deriving DecidableEq, Repr

/-- Per-pair FX factor configuration (`FxBsData`, the fields the
orchestrator reads). -/
structure FxBsData where
  foreignCcy : String
  domesticCcy : String
  calibrationType : CalibrationType
  calibrateSigma : Bool
  sigmaParamType : ParamType
  deriving DecidableEq, Repr

/-- Per-name equity factor configuration (`EqBsData`). -/
structure EqBsData where
  eqName : String
  currency : String
  calibrationType : CalibrationType
  calibrateSigma : Bool
  sigmaParamType : ParamType
  deriving DecidableEq, Repr

/-- Per-index inflation factor configuration (`InfDkData`). -/
structure InfDkData where
  infIndex : String
  calibrationType : CalibrationType
  calibrateA : Bool
  calibrateH : Bool
  aParamType : ParamType
  hParamType : ParamType
  deriving DecidableEq, Repr

/-- `CrossAssetModelData`: the configuration record driving the build. -/
structure CrossAssetModelData where
  irConfigs : List IrLgmData
  fxConfigs : List FxBsData
  eqConfigs : List EqBsData
  infConfigs : List InfDkData
  bootstrapTolerance : ℚ
  deriving DecidableEq, Repr

/-- The numeric outcomes the build sequence consumes from the market and
the optimizer: the post-calibration residual reported for each factor
(`irBuilder[i]->error()` and the `logCalibrationErrors` results).  Reals
are modelled as rationals. -/
structure MarketEnv where
  irError : Nat → ℚ
  fxError : Nat → ℚ
  eqError : Nat → ℚ
  infError : Nat → ℚ

/-- The five market-configuration labels held by the builder. -/
inductive CfgLabel where
  | lgmCalibration
  | fxCalibration
  | eqCalibration
  | infCalibration
  | finalModel
  deriving DecidableEq, Repr

/-- The asset classes whose calibration the orchestrator drives after the
rate stage. -/
inductive AssetStage where
  | fx
  | eq
  | inf
  deriving DecidableEq, Repr

/-- Observable steps of the build sequence, in the order `buildModel`
performs them. -/
inductive BuildEvent where
  | buildIr (i : Nat)
  | buildFx (i : Nat)
  | buildEq (i : Nat)
  | buildInf (i : Nat)
  | assembleCorrelationMatrix
  | constructModel
  | recordIrError (i : Nat)
  | relinkDiscountCurve (i : Nat) (cfg : CfgLabel)
  | skipCalibration (stage : AssetStage) (i : Nat)
  | attachEngine (stage : AssetStage) (i : Nat)
  | calibrateIterative (stage : AssetStage) (i : Nat)
  | calibrateGlobal (stage : AssetStage) (i : Nat)
  | calibrateRevIterative (i : Nat)
  | calibrateRevGlobal (i : Nat)
  | calibrateJoint (i : Nat)
  | recordCalibrationError (stage : AssetStage) (i : Nat)
  | modelUpdate
  deriving DecidableEq, Repr

/-- The failures `buildModel` can raise (each `QL_REQUIRE` in the source,
classified per the spec's error taxonomy). -/
inductive BuildError where
  | missingIrConfigurations
  | irFxConfigSizeMismatch (fxSize irSize : Nat)
  | fxIrCurrencyMismatch (i : Nat)
  | fxDomesticCurrencyMismatch (i : Nat)
  | eqCurrencyNotCovered (i : Nat)
  | missingIrParametrizations
  | irFxParamSizeMismatch (fxSize irSize : Nat)
  | calibrationTolerance (stage : AssetStage) (i : Nat) (err tol : ℚ)
  deriving DecidableEq, Repr

/-- The spec's taxonomy: every build-time requirement failure except a
bootstrap tolerance breach is a ConfigurationError. -/
def BuildError.isConfigurationError : BuildError → Bool
  | .calibrationTolerance _ _ _ _ => false
  | _ => true

/-- Errors raised by the rate/FX factor-count requirements (lines 135-138,
178 and 255 of the source). -/
def BuildError.isCountMismatch : BuildError → Bool
  | .missingIrConfigurations => true
  | .irFxConfigSizeMismatch _ _ => true
  | .missingIrParametrizations => true
  | .irFxParamSizeMismatch _ _ => true
  | _ => false

/-- The calibration-error vectors exposed by the builder after a
successful build; an entry is `Option.none` when the corresponding factor
was skipped and its error entry not written. -/
structure BuildOutput where
  swaptionCalibrationErrors : List (Option ℚ)
  fxOptionCalibrationErrors : List (Option ℚ)
  eqOptionCalibrationErrors : List (Option ℚ)
  infCapFloorCalibrationErrors : List (Option ℚ)
  deriving DecidableEq, Repr

/-- FX skip condition (line 308):
`fx->calibrationType() == CalibrationType::None || !fx->calibrateSigma()`. -/
def fxSkip (fx : FxBsData) : Prop :=
  fx.calibrationType = CalibrationType.none ∨ fx.calibrateSigma = false

instance (fx : FxBsData) : Decidable (fxSkip fx) := by
  unfold fxSkip; infer_instance

/-- FX iterative-calibration condition (line 324):
`calibrationType == Bootstrap && sigmaParamType == Piecewise`. -/
def fxIterativeCond (fx : FxBsData) : Prop :=
  fx.calibrationType = CalibrationType.bootstrap ∧ fx.sigmaParamType = ParamType.piecewise

instance (fx : FxBsData) : Decidable (fxIterativeCond fx) := by
  unfold fxIterativeCond; infer_instance

/-- Equity skip condition (line 357): `!eq->calibrateSigma()` only — the
calibration type is not consulted here. -/
def eqSkip (e : EqBsData) : Prop := e.calibrateSigma = false

instance (e : EqBsData) : Decidable (eqSkip e) := by
  unfold eqSkip; infer_instance

/-- Equity iterative-calibration condition (line 370). -/
def eqIterativeCond (e : EqBsData) : Prop :=
  e.calibrationType = CalibrationType.bootstrap ∧ e.sigmaParamType = ParamType.piecewise

instance (e : EqBsData) : Decidable (eqIterativeCond e) := by
  unfold eqIterativeCond; infer_instance

/-- Inflation skip condition (line 404):
`(!calibrateA && !calibrateH) || calibrationType == None`. -/
def infSkip (d : InfDkData) : Prop :=
  (d.calibrateA = false ∧ d.calibrateH = false) ∨ d.calibrationType = CalibrationType.none

instance (d : InfDkData) : Decidable (infSkip d) := by
  unfold infSkip; infer_instance

/-- Inflation volatility-only mode (line 420): `calibrateA && !calibrateH`. -/
def infVolOnly (d : InfDkData) : Prop := d.calibrateA = true ∧ d.calibrateH = false

instance (d : InfDkData) : Decidable (infVolOnly d) := by
  unfold infVolOnly; infer_instance

/-- Inflation reversion-only mode (line 427): `!calibrateA && calibrateH`. -/
def infRevOnly (d : InfDkData) : Prop := d.calibrateA = false ∧ d.calibrateH = true

instance (d : InfDkData) : Decidable (infRevOnly d) := by
  unfold infRevOnly; infer_instance

/-- Iterative condition for inflation volatilities (line 421). -/
def infVolIterCond (d : InfDkData) : Prop :=
  d.calibrationType = CalibrationType.bootstrap ∧ d.aParamType = ParamType.piecewise

instance (d : InfDkData) : Decidable (infVolIterCond d) := by
  unfold infVolIterCond; infer_instance

/-- Iterative condition for inflation reversions (line 428). -/
def infRevIterCond (d : InfDkData) : Prop :=
  d.calibrationType = CalibrationType.bootstrap ∧ d.hParamType = ParamType.piecewise

instance (d : InfDkData) : Decidable (infRevIterCond d) := by
  unfold infRevIterCond; infer_instance

/-- The IR parametrization build loop (lines 164-176): one `LgmBuilder`
per rate configuration, each self-calibrating at construction. -/
def irBuildEvents (n : Nat) : List BuildEvent :=
  (List.range n).map BuildEvent.buildIr

/-- The FX parametrization build loop (lines 186-206), including the two
currency-consistency requirements (lines 192-197); `irCcys` is the list
of rate currencies and `domesticCcy` the first of them. -/
def fxBuildPhase (irCcys : List String) (domesticCcy : String) :
    List FxBsData → Nat → List BuildEvent × Option BuildError
  | [], _ => ([], Option.none)
  | fx :: rest, i =>
    if fx.foreignCcy ≠ irCcys.getD (i + 1) "" then
      ([], some (BuildError.fxIrCurrencyMismatch i))
    else if fx.domesticCcy ≠ domesticCcy then
      ([], some (BuildError.fxDomesticCurrencyMismatch i))
    else
      let r := fxBuildPhase irCcys domesticCcy rest (i + 1)
      (BuildEvent.buildFx i :: r.1, r.2)

/-- The EQ parametrization build loop (lines 212-226), including the
currency-coverage requirement (lines 217-218). -/
def eqBuildPhase (currencies : List String) :
    List EqBsData → Nat → List BuildEvent × Option BuildError
  | [], _ => ([], Option.none)
  | e :: rest, i =>
    if e.currency ∉ currencies then
      ([], some (BuildError.eqCurrencyNotCovered i))
    else
      let r := eqBuildPhase currencies rest (i + 1)
      (BuildEvent.buildEq i :: r.1, r.2)

/-- The INF parametrization build loop (lines 232-243); it performs no
checks. -/
def infBuildEvents (n : Nat) : List BuildEvent :=
  (List.range n).map BuildEvent.buildInf

/-- One iteration of a discount-curve relink loop (lines 295-299, 345-349,
391-395, 452-456): every rate factor's discount curve is relinked to the
named configuration. -/
def relinkEvents (n : Nat) (cfg : CfgLabel) : List BuildEvent :=
  (List.range n).map (fun i => BuildEvent.relinkDiscountCurve i cfg)

/-- Events of one iteration of the FX calibration loop body
(lines 305-339). -/
def fxFactorEvents (fx : FxBsData) (i : Nat) : List BuildEvent :=
  if fxSkip fx then [BuildEvent.skipCalibration AssetStage.fx i]
  else
    [BuildEvent.attachEngine AssetStage.fx i,
     if fxIterativeCond fx then BuildEvent.calibrateIterative AssetStage.fx i
     else BuildEvent.calibrateGlobal AssetStage.fx i,
     BuildEvent.recordCalibrationError AssetStage.fx i]

/-- The error-vector entry written by one FX calibration iteration: a
skipped factor's entry is not written (`continue` at line 310). -/
def fxFactorErrEntry (env : MarketEnv) (fx : FxBsData) (i : Nat) : Option ℚ :=
  if fxSkip fx then Option.none else some (env.fxError i)

/-- The bootstrap tolerance gate of the FX loop (lines 334-338):
`QL_REQUIRE(fabs(err) < tol)` when the calibration type is Bootstrap. -/
def fxFactorFail (tol : ℚ) (env : MarketEnv) (fx : FxBsData) (i : Nat) : Option BuildError :=
  if fxSkip fx then Option.none
  else if fx.calibrationType = CalibrationType.bootstrap ∧ ¬(|env.fxError i| < tol) then
    some (BuildError.calibrationTolerance AssetStage.fx i (env.fxError i) tol)
  else Option.none

/-- The FX calibration loop (lines 305-339): events, error-vector entries
and the first tolerance failure, if any (the `QL_REQUIRE` aborts the
loop). -/
def fxCalPhase (tol : ℚ) (env : MarketEnv) :
    List FxBsData → Nat → List BuildEvent × List (Option ℚ) × Option BuildError
  | [], _ => ([], [], Option.none)
  | fx :: rest, i =>
    match fxFactorFail tol env fx i with
    | some e => (fxFactorEvents fx i, [fxFactorErrEntry env fx i], some e)
    | Option.none =>
      let r := fxCalPhase tol env rest (i + 1)
      (fxFactorEvents fx i ++ r.1, fxFactorErrEntry env fx i :: r.2.1, r.2.2)

/-- Events of one iteration of the EQ calibration loop body
(lines 355-385). -/
def eqFactorEvents (e : EqBsData) (i : Nat) : List BuildEvent :=
  if eqSkip e then [BuildEvent.skipCalibration AssetStage.eq i]
  else
    [BuildEvent.attachEngine AssetStage.eq i,
     if eqIterativeCond e then BuildEvent.calibrateIterative AssetStage.eq i
     else BuildEvent.calibrateGlobal AssetStage.eq i,
     BuildEvent.recordCalibrationError AssetStage.eq i]

/-- The error-vector entry written by one EQ calibration iteration. -/
def eqFactorErrEntry (env : MarketEnv) (e : EqBsData) (i : Nat) : Option ℚ :=
  if eqSkip e then Option.none else some (env.eqError i)

/-- The bootstrap tolerance gate of the EQ loop (lines 380-384). -/
def eqFactorFail (tol : ℚ) (env : MarketEnv) (e : EqBsData) (i : Nat) : Option BuildError :=
  if eqSkip e then Option.none
  else if e.calibrationType = CalibrationType.bootstrap ∧ ¬(|env.eqError i| < tol) then
    some (BuildError.calibrationTolerance AssetStage.eq i (env.eqError i) tol)
  else Option.none

/-- The EQ calibration loop (lines 355-385). -/
def eqCalPhase (tol : ℚ) (env : MarketEnv) :
    List EqBsData → Nat → List BuildEvent × List (Option ℚ) × Option BuildError
  | [], _ => ([], [], Option.none)
  | e :: rest, i =>
    match eqFactorFail tol env e i with
    | some er => (eqFactorEvents e i, [eqFactorErrEntry env e i], some er)
    | Option.none =>
      let r := eqCalPhase tol env rest (i + 1)
      (eqFactorEvents e i ++ r.1, eqFactorErrEntry env e i :: r.2.1, r.2.2)

/-- The three-way inflation calibration dispatch (lines 420-436):
volatility-only, reversion-only, or a single joint fit of the whole
basket. -/
def infCalEvent (d : InfDkData) (i : Nat) : BuildEvent :=
  if infVolOnly d then
    if infVolIterCond d then BuildEvent.calibrateIterative AssetStage.inf i
    else BuildEvent.calibrateGlobal AssetStage.inf i
  else if infRevOnly d then
    if infRevIterCond d then BuildEvent.calibrateRevIterative i
    else BuildEvent.calibrateRevGlobal i
  else BuildEvent.calibrateJoint i

/-- Events of one iteration of the INF calibration loop body
(lines 402-446). -/
def infFactorEvents (d : InfDkData) (i : Nat) : List BuildEvent :=
  if infSkip d then [BuildEvent.skipCalibration AssetStage.inf i]
  else
    [BuildEvent.attachEngine AssetStage.inf i, infCalEvent d i,
     BuildEvent.recordCalibrationError AssetStage.inf i]

/-- The error-vector entry written by one INF calibration iteration. -/
def infFactorErrEntry (env : MarketEnv) (d : InfDkData) (i : Nat) : Option ℚ :=
  if infSkip d then Option.none else some (env.infError i)

/-- The bootstrap tolerance gate of the INF loop (lines 441-445). -/
def infFactorFail (tol : ℚ) (env : MarketEnv) (d : InfDkData) (i : Nat) : Option BuildError :=
  if infSkip d then Option.none
  else if d.calibrationType = CalibrationType.bootstrap ∧ ¬(|env.infError i| < tol) then
    some (BuildError.calibrationTolerance AssetStage.inf i (env.infError i) tol)
  else Option.none

/-- The INF calibration loop (lines 402-446). -/
def infCalPhase (tol : ℚ) (env : MarketEnv) :
    List InfDkData → Nat → List BuildEvent × List (Option ℚ) × Option BuildError
  | [], _ => ([], [], Option.none)
  | d :: rest, i =>
    match infFactorFail tol env d i with
    | some er => (infFactorEvents d i, [infFactorErrEntry env d i], some er)
    | Option.none =>
      let r := infCalPhase tol env rest (i + 1)
      (infFactorEvents d i ++ r.1, infFactorErrEntry env d i :: r.2.1, r.2.2)

/-- The `currencies` vector collected in the IR build loop (line 172). -/
def currencies (cfg : CrossAssetModelData) : List String :=
  cfg.irConfigs.map IrLgmData.ccy

/-- `domesticCcy = irParametrizations[0]->currency()` (line 180). -/
def domesticCcy (cfg : CrossAssetModelData) : String :=
  (currencies cfg).getD 0 ""

/-- Result of the FX parametrization build loop on the full configuration. -/
def fxBuildResult (cfg : CrossAssetModelData) : List BuildEvent × Option BuildError :=
  fxBuildPhase (currencies cfg) (domesticCcy cfg) cfg.fxConfigs 0

/-- Result of the EQ parametrization build loop on the full configuration. -/
def eqBuildResult (cfg : CrossAssetModelData) : List BuildEvent × Option BuildError :=
  eqBuildPhase (currencies cfg) cfg.eqConfigs 0

/-- Result of the FX calibration loop on the full configuration. -/
def fxCalResult (cfg : CrossAssetModelData) (env : MarketEnv) :
    List BuildEvent × List (Option ℚ) × Option BuildError :=
  fxCalPhase cfg.bootstrapTolerance env cfg.fxConfigs 0

/-- Result of the EQ calibration loop on the full configuration. -/
def eqCalResult (cfg : CrossAssetModelData) (env : MarketEnv) :
    List BuildEvent × List (Option ℚ) × Option BuildError :=
  eqCalPhase cfg.bootstrapTolerance env cfg.eqConfigs 0

/-- Result of the INF calibration loop on the full configuration. -/
def infCalResult (cfg : CrossAssetModelData) (env : MarketEnv) :
    List BuildEvent × List (Option ℚ) × Option BuildError :=
  infCalPhase cfg.bootstrapTolerance env cfg.infConfigs 0

/-- The rate calibration-error collection loop (lines 286-289):
`swaptionCalibrationErrors_[i] = irBuilder[i]->error()`. -/
def swaptionErrs (env : MarketEnv) (n : Nat) : List (Option ℚ) :=
  (List.range n).map (fun i => some (env.irError i))

/-- Events of the rate calibration-error collection loop. -/
def recordIrEvents (n : Nat) : List BuildEvent :=
  (List.range n).map BuildEvent.recordIrError

/-- `CrossAssetModelBuilder::buildModel` (lines 127-463): the full build
sequence.  Returns the populated calibration-error vectors, or the first
requirement failure, together with the trace of steps performed up to
that point. -/
def buildModel (cfg : CrossAssetModelData) (env : MarketEnv) :
    Except BuildError BuildOutput × List BuildEvent :=
  if cfg.irConfigs.length = 0 then
    (Except.error BuildError.missingIrConfigurations, [])
  else if cfg.irConfigs.length ≠ cfg.fxConfigs.length + 1 then
    (Except.error (BuildError.irFxConfigSizeMismatch cfg.fxConfigs.length cfg.irConfigs.length), [])
  else if (currencies cfg).length = 0 then
    (Except.error BuildError.missingIrParametrizations, irBuildEvents cfg.irConfigs.length)
  else
    match (fxBuildResult cfg).2 with
    | some e =>
      (Except.error e, irBuildEvents cfg.irConfigs.length ++ (fxBuildResult cfg).1)
    | Option.none =>
      match (eqBuildResult cfg).2 with
      | some e =>
        (Except.error e,
         irBuildEvents cfg.irConfigs.length ++ (fxBuildResult cfg).1 ++ (eqBuildResult cfg).1)
      | Option.none =>
        if cfg.fxConfigs.length ≠ cfg.irConfigs.length - 1 then
          (Except.error
             (BuildError.irFxParamSizeMismatch cfg.fxConfigs.length cfg.irConfigs.length),
           irBuildEvents cfg.irConfigs.length ++ (fxBuildResult cfg).1 ++ (eqBuildResult cfg).1 ++
             infBuildEvents cfg.infConfigs.length)
        else
          match (fxCalResult cfg env).2.2 with
          | some e =>
            (Except.error e,
             irBuildEvents cfg.irConfigs.length ++ (fxBuildResult cfg).1 ++ (eqBuildResult cfg).1 ++
               infBuildEvents cfg.infConfigs.length ++
               [BuildEvent.assembleCorrelationMatrix, BuildEvent.constructModel] ++
               recordIrEvents cfg.irConfigs.length ++
               relinkEvents cfg.irConfigs.length CfgLabel.fxCalibration ++ (fxCalResult cfg env).1)
          | Option.none =>
            match (eqCalResult cfg env).2.2 with
            | some e =>
              (Except.error e,
               irBuildEvents cfg.irConfigs.length ++ (fxBuildResult cfg).1 ++ (eqBuildResult cfg).1 ++
                 infBuildEvents cfg.infConfigs.length ++
                 [BuildEvent.assembleCorrelationMatrix, BuildEvent.constructModel] ++
                 recordIrEvents cfg.irConfigs.length ++
                 relinkEvents cfg.irConfigs.length CfgLabel.fxCalibration ++ (fxCalResult cfg env).1 ++
                 relinkEvents cfg.irConfigs.length CfgLabel.eqCalibration ++ (eqCalResult cfg env).1)
            | Option.none =>
              match (infCalResult cfg env).2.2 with
              | some e =>
                (Except.error e,
                 irBuildEvents cfg.irConfigs.length ++ (fxBuildResult cfg).1 ++ (eqBuildResult cfg).1 ++
                   infBuildEvents cfg.infConfigs.length ++
                   [BuildEvent.assembleCorrelationMatrix, BuildEvent.constructModel] ++
                   recordIrEvents cfg.irConfigs.length ++
                   relinkEvents cfg.irConfigs.length CfgLabel.fxCalibration ++ (fxCalResult cfg env).1 ++
                   relinkEvents cfg.irConfigs.length CfgLabel.eqCalibration ++ (eqCalResult cfg env).1 ++
                   relinkEvents cfg.irConfigs.length CfgLabel.finalModel ++ (infCalResult cfg env).1)
              | Option.none =>
                (Except.ok
                   { swaptionCalibrationErrors := swaptionErrs env cfg.irConfigs.length,
                     fxOptionCalibrationErrors := (fxCalResult cfg env).2.1,
                     eqOptionCalibrationErrors := (eqCalResult cfg env).2.1,
                     infCapFloorCalibrationErrors := (infCalResult cfg env).2.1 },
                 irBuildEvents cfg.irConfigs.length ++ (fxBuildResult cfg).1 ++ (eqBuildResult cfg).1 ++
                   infBuildEvents cfg.infConfigs.length ++
                   [BuildEvent.assembleCorrelationMatrix, BuildEvent.constructModel] ++
                   recordIrEvents cfg.irConfigs.length ++
                   relinkEvents cfg.irConfigs.length CfgLabel.fxCalibration ++ (fxCalResult cfg env).1 ++
                   relinkEvents cfg.irConfigs.length CfgLabel.eqCalibration ++ (eqCalResult cfg env).1 ++
                   relinkEvents cfg.irConfigs.length CfgLabel.finalModel ++ (infCalResult cfg env).1 ++
                   relinkEvents cfg.irConfigs.length CfgLabel.finalModel ++ [BuildEvent.modelUpdate])

/-!
The lazy-recalculation layer (lines 75-125): builder state, staleness
check and `performCalculations`.
-/

/-- Observable actions of one rebuild decision: observer queries
(`MarketObserver::hasUpdated(reset)`), the un/re-registration with the
sub-builders and the re-run of the build sequence. -/
inductive RecalcAction where
  | queryObserver (reset : Bool)
  | unregisterAll
  | runBuild
  | registerAll
  deriving DecidableEq, Repr

/-- The builder's mutable state as seen by the recalculation logic:
per-sub-builder `requiresRecalibration` flags, the market observer's
updated flag, how many times the build sequence has run, the generation
of the currently held model (replaced wholesale on rebuild) and the
cached calibration-error vectors. -/
structure BuilderState where
  subDirty : List Bool
  observerUpdated : Bool
  buildCount : Nat
  cachedModel : Nat
  cachedOutput : BuildOutput
  deriving DecidableEq, Repr

/-- Environment of the recalculation layer: the output produced by the
k-th run of the build sequence and the number of sub-builders it creates. -/
structure RebuildEnv where
  buildOutputAt : Nat → BuildOutput
  nSubBuilders : Nat → Nat

/-- `CrossAssetModelBuilder::requiresRecalibration` (lines 107-112):
true if any sub-builder requires recalibration, else whether the market
observer has updated (queried without resetting). -/
def requiresRecalibration (s : BuilderState) : Bool :=
  s.subDirty.any id || s.observerUpdated

/-- The observer queries issued by `requiresRecalibration`: the loop over
the sub-builders returns early, so `hasUpdated(false)` is reached only
when no sub-builder is dirty. -/
def staleCheckQueries (s : BuilderState) : List RecalcAction :=
  if s.subDirty.any id then [] else [RecalcAction.queryObserver false]

/-- `CrossAssetModelBuilder::performCalculations` (lines 114-125): if the
staleness check fires, reset the observer flag (`hasUpdated(true)`),
unregister from the sub-builders, re-run the build sequence and
re-register; otherwise leave everything untouched. -/
def performCalculations (env : RebuildEnv) (s : BuilderState) :
    BuilderState × List RecalcAction :=
  if requiresRecalibration s then
    ({ subDirty := List.replicate (env.nSubBuilders s.buildCount) false,
       observerUpdated := false,
       buildCount := s.buildCount + 1,
       cachedModel := s.buildCount + 1,
       cachedOutput := env.buildOutputAt s.buildCount },
     staleCheckQueries s ++
       [RecalcAction.queryObserver true, RecalcAction.unregisterAll,
        RecalcAction.runBuild, RecalcAction.registerAll])
  else (s, staleCheckQueries s)

/-- `CrossAssetModelBuilder::model` (lines 75-78): a public accessor; it
calls `calculate()` and returns the (possibly rebuilt) model handle. -/
def model (env : RebuildEnv) (s : BuilderState) : Nat × BuilderState :=
  ((performCalculations env s).1.cachedModel, (performCalculations env s).1)

/-- `swaptionCalibrationErrors` accessor (lines 80-83). -/
def swaptionCalibrationErrors (env : RebuildEnv) (s : BuilderState) :
    List (Option ℚ) × BuilderState :=
  ((performCalculations env s).1.cachedOutput.swaptionCalibrationErrors,
   (performCalculations env s).1)

/-- `fxOptionCalibrationErrors` accessor (lines 84-87). -/
def fxOptionCalibrationErrors (env : RebuildEnv) (s : BuilderState) :
    List (Option ℚ) × BuilderState :=
  ((performCalculations env s).1.cachedOutput.fxOptionCalibrationErrors,
   (performCalculations env s).1)

/-- `eqOptionCalibrationErrors` accessor (lines 88-91). -/
def eqOptionCalibrationErrors (env : RebuildEnv) (s : BuilderState) :
    List (Option ℚ) × BuilderState :=
  ((performCalculations env s).1.cachedOutput.eqOptionCalibrationErrors,
   (performCalculations env s).1)

/-- `infCapFloorCalibrationErrors` accessor (lines 92-95). -/
def infCapFloorCalibrationErrors (env : RebuildEnv) (s : BuilderState) :
    List (Option ℚ) × BuilderState :=
  ((performCalculations env s).1.cachedOutput.infCapFloorCalibrationErrors,
   (performCalculations env s).1)

/-- Number of observer queries among the actions of a rebuild decision. -/
def observerQueryCount (acts : List RecalcAction) : Nat :=
  acts.countP (fun a => match a with | RecalcAction.queryObserver _ => true | _ => false)

/-!  Helper lemmas about the build phases. -/

theorem mem_irBuildEvents {ev : BuildEvent} {n : Nat} (h : ev ∈ irBuildEvents n) :
    ∃ k, ev = BuildEvent.buildIr k := by
  simp only [irBuildEvents, List.mem_map] at h
  rcases h with ⟨k, -, hk⟩
  exact ⟨k, hk.symm⟩

theorem mem_infBuildEvents {ev : BuildEvent} {n : Nat} (h : ev ∈ infBuildEvents n) :
    ∃ k, ev = BuildEvent.buildInf k := by
  simp only [infBuildEvents, List.mem_map] at h
  rcases h with ⟨k, -, hk⟩
  exact ⟨k, hk.symm⟩

theorem mem_relinkEvents {ev : BuildEvent} {n : Nat} {cfg : CfgLabel}
    (h : ev ∈ relinkEvents n cfg) : ∃ k, ev = BuildEvent.relinkDiscountCurve k cfg := by
  simp only [relinkEvents, List.mem_map] at h
  rcases h with ⟨k, -, hk⟩
  exact ⟨k, hk.symm⟩

theorem fxBuildPhase_error_config (c : List String) (d : String) :
    ∀ (fxs : List FxBsData) (j : Nat) (e : BuildError),
      (fxBuildPhase c d fxs j).2 = some e → e.isConfigurationError = true := by
  intro fxs
  induction fxs with
  | nil => intro j e h; simp [fxBuildPhase] at h
  | cons fx rest ih =>
    intro j e h
    simp only [fxBuildPhase] at h
    split at h
    · simp only [Option.some.injEq] at h
      subst h; rfl
    · split at h
      · simp only [Option.some.injEq] at h
        subst h; rfl
      · exact ih (j + 1) e h

theorem fxBuildPhase_events_shape (c : List String) (d : String) :
    ∀ (fxs : List FxBsData) (j : Nat) (ev : BuildEvent),
      ev ∈ (fxBuildPhase c d fxs j).1 → ∃ k, ev = BuildEvent.buildFx k := by
  intro fxs
  induction fxs with
  | nil => intro j ev h; simp [fxBuildPhase] at h
  | cons fx rest ih =>
    intro j ev h
    simp only [fxBuildPhase] at h
    split at h
    · simp at h
    · split at h
      · simp at h
      · simp only [List.mem_cons] at h
        rcases h with h | h
        · exact ⟨j, h⟩
        · exact ih (j + 1) ev h

theorem fxBuildPhase_none_iff (c : List String) (d : String) :
    ∀ (fxs : List FxBsData) (j : Nat),
      (fxBuildPhase c d fxs j).2 = Option.none ↔
        ∀ (i : Nat) (fx : FxBsData), fxs[i]? = some fx →
          fx.foreignCcy = c.getD (j + i + 1) "" ∧ fx.domesticCcy = d := by
  intro fxs
  induction fxs with
  | nil =>
    intro j
    simp [fxBuildPhase]
  | cons fx rest ih =>
    intro j
    simp only [fxBuildPhase]
    split
    · rename_i hfor
      constructor
      · intro h; simp at h
      · intro h
        exact absurd (by simpa using (h 0 fx (by simp)).1) hfor
    · split
      · rename_i hfor hdom
        constructor
        · intro h; simp at h
        · intro h
          exact absurd (by simpa using (h 0 fx (by simp)).2) hdom
      · rename_i hfor hdom
        rw [show (BuildEvent.buildFx j :: (fxBuildPhase c d rest (j + 1)).1,
              (fxBuildPhase c d rest (j + 1)).2).2 = (fxBuildPhase c d rest (j + 1)).2 from rfl]
        rw [ih (j + 1)]
        constructor
        · intro h i fx' hi
          cases i with
          | zero =>
            simp only [List.getElem?_cons_zero, Option.some.injEq] at hi
            subst hi
            constructor
            · simpa using Decidable.not_not.mp hfor
            · simpa using Decidable.not_not.mp hdom
          | succ i =>
            simp only [List.getElem?_cons_succ] at hi
            have := h i fx' hi
            simpa [Nat.add_comm, Nat.add_left_comm, Nat.add_assoc] using this
        · intro h i fx' hi
          have := h (i + 1) fx' (by simpa using hi)
          simpa [Nat.add_comm, Nat.add_left_comm, Nat.add_assoc] using this

theorem eqBuildPhase_error_config (c : List String) :
    ∀ (eqs : List EqBsData) (j : Nat) (e : BuildError),
      (eqBuildPhase c eqs j).2 = some e → e.isConfigurationError = true := by
  intro eqs
  induction eqs with
  | nil => intro j e h; simp [eqBuildPhase] at h
  | cons q rest ih =>
    intro j e h
    simp only [eqBuildPhase] at h
    split at h
    · simp only [Option.some.injEq] at h
      subst h; rfl
    · exact ih (j + 1) e h

theorem eqBuildPhase_events_shape (c : List String) :
    ∀ (eqs : List EqBsData) (j : Nat) (ev : BuildEvent),
      ev ∈ (eqBuildPhase c eqs j).1 → ∃ k, ev = BuildEvent.buildEq k := by
  intro eqs
  induction eqs with
  | nil => intro j ev h; simp [eqBuildPhase] at h
  | cons q rest ih =>
    intro j ev h
    simp only [eqBuildPhase] at h
    split at h
    · simp at h
    · simp only [List.mem_cons] at h
      rcases h with h | h
      · exact ⟨j, h⟩
      · exact ih (j + 1) ev h

theorem eqBuildPhase_none_iff (c : List String) :
    ∀ (eqs : List EqBsData) (j : Nat),
      (eqBuildPhase c eqs j).2 = Option.none ↔
        ∀ (i : Nat) (q : EqBsData), eqs[i]? = some q → q.currency ∈ c := by
  intro eqs
  induction eqs with
  | nil => intro j; simp [eqBuildPhase]
  | cons q rest ih =>
    intro j
    simp only [eqBuildPhase]
    split
    · rename_i hq
      constructor
      · intro h; simp at h
      · intro h
        exact absurd (h 0 q (by simp)) hq
    · rename_i hq
      rw [show (BuildEvent.buildEq j :: (eqBuildPhase c rest (j + 1)).1,
            (eqBuildPhase c rest (j + 1)).2).2 = (eqBuildPhase c rest (j + 1)).2 from rfl]
      rw [ih (j + 1)]
      constructor
      · intro h i q' hi
        cases i with
        | zero =>
          simp only [List.getElem?_cons_zero, Option.some.injEq] at hi
          subst hi
          exact Decidable.not_not.mp hq
        | succ i =>
          simp only [List.getElem?_cons_succ] at hi
          exact h i q' hi
      · intro h i q' hi
        exact h (i + 1) q' (by simp [hi])

theorem exists_factor_iff {α : Type} (fxs : List α) (j i : Nat) (fx : α)
    (hfx : fxs[i]? = some fx) (P : α → Prop) :
    (∃ (i' : Nat) (fx' : α), fxs[i']? = some fx' ∧ j + i = j + i' ∧ P fx') ↔ P fx := by
  constructor
  · rintro ⟨i', fx', hfx', heq, hp⟩
    have hii : i = i' := Nat.add_left_cancel heq
    subst hii
    rw [hfx] at hfx'
    cases hfx'
    exact hp
  · intro hp
    exact ⟨i, fx, hfx, rfl, hp⟩

theorem fxFactorFail_none_iff (tol : ℚ) (env : MarketEnv) (fx : FxBsData) (i : Nat) :
    fxFactorFail tol env fx i = Option.none ↔
      (¬ fxSkip fx → fx.calibrationType = CalibrationType.bootstrap → |env.fxError i| < tol) := by
  unfold fxFactorFail
  by_cases hs : fxSkip fx
  · simp [hs]
  · by_cases hb : fx.calibrationType = CalibrationType.bootstrap ∧ ¬(|env.fxError i| < tol)
    · rw [if_neg hs, if_pos hb]
      constructor
      · intro h; exact absurd h (by simp)
      · intro h; exact absurd (h hs hb.1) hb.2
    · rw [if_neg hs, if_neg hb]
      constructor
      · intro _ hns hbt
        by_contra hlt
        exact hb ⟨hbt, hlt⟩
      · intro _; rfl

theorem fxFactorFail_some (tol : ℚ) (env : MarketEnv) (fx : FxBsData) (i : Nat)
    (e : BuildError) (h : fxFactorFail tol env fx i = some e) :
    ¬ fxSkip fx ∧ fx.calibrationType = CalibrationType.bootstrap ∧ ¬(|env.fxError i| < tol) ∧
      e = BuildError.calibrationTolerance AssetStage.fx i (env.fxError i) tol := by
  unfold fxFactorFail at h
  by_cases hs : fxSkip fx
  · simp [hs] at h
  · by_cases hb : fx.calibrationType = CalibrationType.bootstrap ∧ ¬(|env.fxError i| < tol)
    · rw [if_neg hs, if_pos hb] at h
      cases h
      exact ⟨hs, hb.1, hb.2, rfl⟩
    · rw [if_neg hs, if_neg hb] at h
      cases h

theorem fxCalPhase_fail_none_iff (tol : ℚ) (env : MarketEnv) :
    ∀ (fxs : List FxBsData) (j : Nat),
      (fxCalPhase tol env fxs j).2.2 = Option.none ↔
        ∀ (i : Nat) (fx : FxBsData), fxs[i]? = some fx →
          fxFactorFail tol env fx (j + i) = Option.none := by
  intro fxs
  induction fxs with
  | nil => intro j; simp [fxCalPhase]
  | cons fx rest ih =>
    intro j
    simp only [fxCalPhase]
    cases hf : fxFactorFail tol env fx j with
    | some e =>
      simp only
      constructor
      · intro h; simp at h
      · intro h
        have := h 0 fx (by simp)
        rw [show j + 0 = j from rfl] at this
        rw [hf] at this
        cases this
    | none =>
      simp only
      rw [ih (j + 1)]
      constructor
      · intro h i fx' hi
        cases i with
        | zero =>
          simp only [List.getElem?_cons_zero, Option.some.injEq] at hi
          subst hi
          simpa using hf
        | succ i =>
          simp only [List.getElem?_cons_succ] at hi
          have := h i fx' hi
          simpa [Nat.add_comm, Nat.add_left_comm, Nat.add_assoc] using this
      · intro h i fx' hi
        have := h (i + 1) fx' (by simp [hi])
        simpa [Nat.add_comm, Nat.add_left_comm, Nat.add_assoc] using this

theorem fxCalPhase_fail_some (tol : ℚ) (env : MarketEnv) :
    ∀ (fxs : List FxBsData) (j : Nat) (e : BuildError),
      (fxCalPhase tol env fxs j).2.2 = some e →
        ∃ (i : Nat) (fx : FxBsData), fxs[i]? = some fx ∧
          fxFactorFail tol env fx (j + i) = some e := by
  intro fxs
  induction fxs with
  | nil => intro j e h; simp [fxCalPhase] at h
  | cons fx rest ih =>
    intro j e h
    simp only [fxCalPhase] at h
    cases hf : fxFactorFail tol env fx j with
    | some e' =>
      rw [hf] at h
      simp only at h
      cases h
      exact ⟨0, fx, by simp, by simpa using hf⟩
    | none =>
      rw [hf] at h
      simp only at h
      rcases ih (j + 1) e h with ⟨i, fx', hi, hfail⟩
      refine ⟨i + 1, fx', by simp [hi], ?_⟩
      simpa [Nat.add_comm, Nat.add_left_comm, Nat.add_assoc] using hfail

theorem fxCalPhase_events_of_none (tol : ℚ) (env : MarketEnv) :
    ∀ (fxs : List FxBsData) (j : Nat),
      (fxCalPhase tol env fxs j).2.2 = Option.none →
        ∀ ev : BuildEvent,
          (ev ∈ (fxCalPhase tol env fxs j).1 ↔
            ∃ (i : Nat) (fx : FxBsData), fxs[i]? = some fx ∧ ev ∈ fxFactorEvents fx (j + i)) := by
  intro fxs
  induction fxs with
  | nil => intro j _ ev; simp [fxCalPhase]
  | cons fx rest ih =>
    intro j hnone ev
    cases hf : fxFactorFail tol env fx j with
    | some e =>
      simp only [fxCalPhase, hf] at hnone
      simp at hnone
    | none =>
      simp only [fxCalPhase, hf] at hnone ⊢
      rw [List.mem_append]
      rw [ih (j + 1) hnone ev]
      constructor
      · intro h
        rcases h with h | ⟨i, fx', hi, hm⟩
        · exact ⟨0, fx, by simp, by simpa using h⟩
        · refine ⟨i + 1, fx', by simp [hi], ?_⟩
          simpa [Nat.add_comm, Nat.add_left_comm, Nat.add_assoc] using hm
      · rintro ⟨i, fx', hi, hm⟩
        cases i with
        | zero =>
          simp only [List.getElem?_cons_zero, Option.some.injEq] at hi
          subst hi
          exact Or.inl (by simpa using hm)
        | succ i =>
          simp only [List.getElem?_cons_succ] at hi
          refine Or.inr ⟨i, fx', hi, ?_⟩
          simpa [Nat.add_comm, Nat.add_left_comm, Nat.add_assoc] using hm

theorem fxCalPhase_errs_of_none (tol : ℚ) (env : MarketEnv) :
    ∀ (fxs : List FxBsData) (j : Nat),
      (fxCalPhase tol env fxs j).2.2 = Option.none →
        ((fxCalPhase tol env fxs j).2.1.length = fxs.length ∧
          ∀ (i : Nat) (fx : FxBsData), fxs[i]? = some fx →
            (fxCalPhase tol env fxs j).2.1[i]? = some (fxFactorErrEntry env fx (j + i))) := by
  intro fxs
  induction fxs with
  | nil => intro j _; simp [fxCalPhase]
  | cons fx rest ih =>
    intro j hnone
    cases hf : fxFactorFail tol env fx j with
    | some e =>
      simp only [fxCalPhase, hf] at hnone
      simp at hnone
    | none =>
      simp only [fxCalPhase, hf] at hnone ⊢
      rcases ih (j + 1) hnone with ⟨hlen, hget⟩
      refine ⟨by simpa using hlen, ?_⟩
      intro i fx' hi
      cases i with
      | zero =>
        simp only [List.getElem?_cons_zero, Option.some.injEq] at hi
        subst hi
        simp
      | succ i =>
        simp only [List.getElem?_cons_succ] at hi
        have := hget i fx' hi
        simpa [Nat.add_comm, Nat.add_left_comm, Nat.add_assoc] using this

theorem eqFactorFail_none_iff (tol : ℚ) (env : MarketEnv) (e : EqBsData) (i : Nat) :
    eqFactorFail tol env e i = Option.none ↔
      (¬ eqSkip e → e.calibrationType = CalibrationType.bootstrap → |env.eqError i| < tol) := by
  unfold eqFactorFail
  by_cases hs : eqSkip e
  · simp [hs]
  · by_cases hb : e.calibrationType = CalibrationType.bootstrap ∧ ¬(|env.eqError i| < tol)
    · rw [if_neg hs, if_pos hb]
      constructor
      · intro h; exact absurd h (by simp)
      · intro h; exact absurd (h hs hb.1) hb.2
    · rw [if_neg hs, if_neg hb]
      constructor
      · intro _ hns hbt
        by_contra hlt
        exact hb ⟨hbt, hlt⟩
      · intro _; rfl

theorem eqFactorFail_some (tol : ℚ) (env : MarketEnv) (e : EqBsData) (i : Nat)
    (er : BuildError) (h : eqFactorFail tol env e i = some er) :
    ¬ eqSkip e ∧ e.calibrationType = CalibrationType.bootstrap ∧ ¬(|env.eqError i| < tol) ∧
      er = BuildError.calibrationTolerance AssetStage.eq i (env.eqError i) tol := by
  unfold eqFactorFail at h
  by_cases hs : eqSkip e
  · simp [hs] at h
  · by_cases hb : e.calibrationType = CalibrationType.bootstrap ∧ ¬(|env.eqError i| < tol)
    · rw [if_neg hs, if_pos hb] at h
      cases h
      exact ⟨hs, hb.1, hb.2, rfl⟩
    · rw [if_neg hs, if_neg hb] at h
      cases h

theorem eqCalPhase_fail_none_iff (tol : ℚ) (env : MarketEnv) :
    ∀ (eqs : List EqBsData) (j : Nat),
      (eqCalPhase tol env eqs j).2.2 = Option.none ↔
        ∀ (i : Nat) (e : EqBsData), eqs[i]? = some e →
          eqFactorFail tol env e (j + i) = Option.none := by
  intro eqs
  induction eqs with
  | nil => intro j; simp [eqCalPhase]
  | cons e rest ih =>
    intro j
    simp only [eqCalPhase]
    cases hf : eqFactorFail tol env e j with
    | some er =>
      simp only
      constructor
      · intro h; simp at h
      · intro h
        have := h 0 e (by simp)
        rw [show j + 0 = j from rfl] at this
        rw [hf] at this
        cases this
    | none =>
      simp only
      rw [ih (j + 1)]
      constructor
      · intro h i e' hi
        cases i with
        | zero =>
          simp only [List.getElem?_cons_zero, Option.some.injEq] at hi
          subst hi
          simpa using hf
        | succ i =>
          simp only [List.getElem?_cons_succ] at hi
          have := h i e' hi
          simpa [Nat.add_comm, Nat.add_left_comm, Nat.add_assoc] using this
      · intro h i e' hi
        have := h (i + 1) e' (by simp [hi])
        simpa [Nat.add_comm, Nat.add_left_comm, Nat.add_assoc] using this

theorem eqCalPhase_fail_some (tol : ℚ) (env : MarketEnv) :
    ∀ (eqs : List EqBsData) (j : Nat) (er : BuildError),
      (eqCalPhase tol env eqs j).2.2 = some er →
        ∃ (i : Nat) (e : EqBsData), eqs[i]? = some e ∧
          eqFactorFail tol env e (j + i) = some er := by
  intro eqs
  induction eqs with
  | nil => intro j er h; simp [eqCalPhase] at h
  | cons e rest ih =>
    intro j er h
    simp only [eqCalPhase] at h
    cases hf : eqFactorFail tol env e j with
    | some e' =>
      rw [hf] at h
      simp only at h
      cases h
      exact ⟨0, e, by simp, by simpa using hf⟩
    | none =>
      rw [hf] at h
      simp only at h
      rcases ih (j + 1) er h with ⟨i, e', hi, hfail⟩
      refine ⟨i + 1, e', by simp [hi], ?_⟩
      simpa [Nat.add_comm, Nat.add_left_comm, Nat.add_assoc] using hfail

theorem eqCalPhase_events_of_none (tol : ℚ) (env : MarketEnv) :
    ∀ (eqs : List EqBsData) (j : Nat),
      (eqCalPhase tol env eqs j).2.2 = Option.none →
        ∀ ev : BuildEvent,
          (ev ∈ (eqCalPhase tol env eqs j).1 ↔
            ∃ (i : Nat) (e : EqBsData), eqs[i]? = some e ∧ ev ∈ eqFactorEvents e (j + i)) := by
  intro eqs
  induction eqs with
  | nil => intro j _ ev; simp [eqCalPhase]
  | cons e rest ih =>
    intro j hnone ev
    cases hf : eqFactorFail tol env e j with
    | some er =>
      simp only [eqCalPhase, hf] at hnone
      simp at hnone
    | none =>
      simp only [eqCalPhase, hf] at hnone ⊢
      rw [List.mem_append]
      rw [ih (j + 1) hnone ev]
      constructor
      · intro h
        rcases h with h | ⟨i, e', hi, hm⟩
        · exact ⟨0, e, by simp, by simpa using h⟩
        · refine ⟨i + 1, e', by simp [hi], ?_⟩
          simpa [Nat.add_comm, Nat.add_left_comm, Nat.add_assoc] using hm
      · rintro ⟨i, e', hi, hm⟩
        cases i with
        | zero =>
          simp only [List.getElem?_cons_zero, Option.some.injEq] at hi
          subst hi
          exact Or.inl (by simpa using hm)
        | succ i =>
          simp only [List.getElem?_cons_succ] at hi
          refine Or.inr ⟨i, e', hi, ?_⟩
          simpa [Nat.add_comm, Nat.add_left_comm, Nat.add_assoc] using hm

theorem eqCalPhase_errs_of_none (tol : ℚ) (env : MarketEnv) :
    ∀ (eqs : List EqBsData) (j : Nat),
      (eqCalPhase tol env eqs j).2.2 = Option.none →
        ((eqCalPhase tol env eqs j).2.1.length = eqs.length ∧
          ∀ (i : Nat) (e : EqBsData), eqs[i]? = some e →
            (eqCalPhase tol env eqs j).2.1[i]? = some (eqFactorErrEntry env e (j + i))) := by
  intro eqs
  induction eqs with
  | nil => intro j _; simp [eqCalPhase]
  | cons e rest ih =>
    intro j hnone
    cases hf : eqFactorFail tol env e j with
    | some er =>
      simp only [eqCalPhase, hf] at hnone
      simp at hnone
    | none =>
      simp only [eqCalPhase, hf] at hnone ⊢
      rcases ih (j + 1) hnone with ⟨hlen, hget⟩
      refine ⟨by simpa using hlen, ?_⟩
      intro i e' hi
      cases i with
      | zero =>
        simp only [List.getElem?_cons_zero, Option.some.injEq] at hi
        subst hi
        simp
      | succ i =>
        simp only [List.getElem?_cons_succ] at hi
        have := hget i e' hi
        simpa [Nat.add_comm, Nat.add_left_comm, Nat.add_assoc] using this

theorem infFactorFail_none_iff (tol : ℚ) (env : MarketEnv) (d : InfDkData) (i : Nat) :
    infFactorFail tol env d i = Option.none ↔
      (¬ infSkip d → d.calibrationType = CalibrationType.bootstrap → |env.infError i| < tol) := by
  unfold infFactorFail
  by_cases hs : infSkip d
  · simp [hs]
  · by_cases hb : d.calibrationType = CalibrationType.bootstrap ∧ ¬(|env.infError i| < tol)
    · rw [if_neg hs, if_pos hb]
      constructor
      · intro h; exact absurd h (by simp)
      · intro h; exact absurd (h hs hb.1) hb.2
    · rw [if_neg hs, if_neg hb]
      constructor
      · intro _ hns hbt
        by_contra hlt
        exact hb ⟨hbt, hlt⟩
      · intro _; rfl

theorem infFactorFail_some (tol : ℚ) (env : MarketEnv) (d : InfDkData) (i : Nat)
    (er : BuildError) (h : infFactorFail tol env d i = some er) :
    ¬ infSkip d ∧ d.calibrationType = CalibrationType.bootstrap ∧ ¬(|env.infError i| < tol) ∧
      er = BuildError.calibrationTolerance AssetStage.inf i (env.infError i) tol := by
  unfold infFactorFail at h
  by_cases hs : infSkip d
  · simp [hs] at h
  · by_cases hb : d.calibrationType = CalibrationType.bootstrap ∧ ¬(|env.infError i| < tol)
    · rw [if_neg hs, if_pos hb] at h
      cases h
      exact ⟨hs, hb.1, hb.2, rfl⟩
    · rw [if_neg hs, if_neg hb] at h
      cases h

theorem infCalPhase_fail_none_iff (tol : ℚ) (env : MarketEnv) :
    ∀ (ds : List InfDkData) (j : Nat),
      (infCalPhase tol env ds j).2.2 = Option.none ↔
        ∀ (i : Nat) (d : InfDkData), ds[i]? = some d →
          infFactorFail tol env d (j + i) = Option.none := by
  intro ds
  induction ds with
  | nil => intro j; simp [infCalPhase]
  | cons d rest ih =>
    intro j
    simp only [infCalPhase]
    cases hf : infFactorFail tol env d j with
    | some er =>
      simp only
      constructor
      · intro h; simp at h
      · intro h
        have := h 0 d (by simp)
        rw [show j + 0 = j from rfl] at this
        rw [hf] at this
        cases this
    | none =>
      simp only
      rw [ih (j + 1)]
      constructor
      · intro h i d' hi
        cases i with
        | zero =>
          simp only [List.getElem?_cons_zero, Option.some.injEq] at hi
          subst hi
          simpa using hf
        | succ i =>
          simp only [List.getElem?_cons_succ] at hi
          have := h i d' hi
          simpa [Nat.add_comm, Nat.add_left_comm, Nat.add_assoc] using this
      · intro h i d' hi
        have := h (i + 1) d' (by simp [hi])
        simpa [Nat.add_comm, Nat.add_left_comm, Nat.add_assoc] using this

theorem infCalPhase_fail_some (tol : ℚ) (env : MarketEnv) :
    ∀ (ds : List InfDkData) (j : Nat) (er : BuildError),
      (infCalPhase tol env ds j).2.2 = some er →
        ∃ (i : Nat) (d : InfDkData), ds[i]? = some d ∧
          infFactorFail tol env d (j + i) = some er := by
  intro ds
  induction ds with
  | nil => intro j er h; simp [infCalPhase] at h
  | cons d rest ih =>
    intro j er h
    simp only [infCalPhase] at h
    cases hf : infFactorFail tol env d j with
    | some e' =>
      rw [hf] at h
      simp only at h
      cases h
      exact ⟨0, d, by simp, by simpa using hf⟩
    | none =>
      rw [hf] at h
      simp only at h
      rcases ih (j + 1) er h with ⟨i, d', hi, hfail⟩
      refine ⟨i + 1, d', by simp [hi], ?_⟩
      simpa [Nat.add_comm, Nat.add_left_comm, Nat.add_assoc] using hfail

theorem infCalPhase_events_of_none (tol : ℚ) (env : MarketEnv) :
    ∀ (ds : List InfDkData) (j : Nat),
      (infCalPhase tol env ds j).2.2 = Option.none →
        ∀ ev : BuildEvent,
          (ev ∈ (infCalPhase tol env ds j).1 ↔
            ∃ (i : Nat) (d : InfDkData), ds[i]? = some d ∧ ev ∈ infFactorEvents d (j + i)) := by
  intro ds
  induction ds with
  | nil => intro j _ ev; simp [infCalPhase]
  | cons d rest ih =>
    intro j hnone ev
    cases hf : infFactorFail tol env d j with
    | some er =>
      simp only [infCalPhase, hf] at hnone
      simp at hnone
    | none =>
      simp only [infCalPhase, hf] at hnone ⊢
      rw [List.mem_append]
      rw [ih (j + 1) hnone ev]
      constructor
      · intro h
        rcases h with h | ⟨i, d', hi, hm⟩
        · exact ⟨0, d, by simp, by simpa using h⟩
        · refine ⟨i + 1, d', by simp [hi], ?_⟩
          simpa [Nat.add_comm, Nat.add_left_comm, Nat.add_assoc] using hm
      · rintro ⟨i, d', hi, hm⟩
        cases i with
        | zero =>
          simp only [List.getElem?_cons_zero, Option.some.injEq] at hi
          subst hi
          exact Or.inl (by simpa using hm)
        | succ i =>
          simp only [List.getElem?_cons_succ] at hi
          refine Or.inr ⟨i, d', hi, ?_⟩
          simpa [Nat.add_comm, Nat.add_left_comm, Nat.add_assoc] using hm

theorem infCalPhase_errs_of_none (tol : ℚ) (env : MarketEnv) :
    ∀ (ds : List InfDkData) (j : Nat),
      (infCalPhase tol env ds j).2.2 = Option.none →
        ((infCalPhase tol env ds j).2.1.length = ds.length ∧
          ∀ (i : Nat) (d : InfDkData), ds[i]? = some d →
            (infCalPhase tol env ds j).2.1[i]? = some (infFactorErrEntry env d (j + i))) := by
  intro ds
  induction ds with
  | nil => intro j _; simp [infCalPhase]
  | cons d rest ih =>
    intro j hnone
    cases hf : infFactorFail tol env d j with
    | some er =>
      simp only [infCalPhase, hf] at hnone
      simp at hnone
    | none =>
      simp only [infCalPhase, hf] at hnone ⊢
      rcases ih (j + 1) hnone with ⟨hlen, hget⟩
      refine ⟨by simpa using hlen, ?_⟩
      intro i d' hi
      cases i with
      | zero =>
        simp only [List.getElem?_cons_zero, Option.some.injEq] at hi
        subst hi
        simp
      | succ i =>
        simp only [List.getElem?_cons_succ] at hi
        have := hget i d' hi
        simpa [Nat.add_comm, Nat.add_left_comm, Nat.add_assoc] using this

theorem mem_fxFactorEvents_skip (fx : FxBsData) (k i : Nat) :
    BuildEvent.skipCalibration AssetStage.fx k ∈ fxFactorEvents fx i ↔ (k = i ∧ fxSkip fx) := by
  unfold fxFactorEvents
  by_cases hs : fxSkip fx
  · simp [hs]
  · by_cases hc : fxIterativeCond fx <;> simp [hs, hc]

theorem mem_fxFactorEvents_attach (fx : FxBsData) (k i : Nat) :
    BuildEvent.attachEngine AssetStage.fx k ∈ fxFactorEvents fx i ↔ (k = i ∧ ¬ fxSkip fx) := by
  unfold fxFactorEvents
  by_cases hs : fxSkip fx
  · simp [hs]
  · by_cases hc : fxIterativeCond fx <;> simp [hs, hc]

theorem mem_fxFactorEvents_iter (fx : FxBsData) (k i : Nat) :
    BuildEvent.calibrateIterative AssetStage.fx k ∈ fxFactorEvents fx i ↔
      (k = i ∧ ¬ fxSkip fx ∧ fxIterativeCond fx) := by
  unfold fxFactorEvents
  by_cases hs : fxSkip fx
  · simp [hs]
  · by_cases hc : fxIterativeCond fx <;> simp [hs, hc]

theorem mem_fxFactorEvents_glob (fx : FxBsData) (k i : Nat) :
    BuildEvent.calibrateGlobal AssetStage.fx k ∈ fxFactorEvents fx i ↔
      (k = i ∧ ¬ fxSkip fx ∧ ¬ fxIterativeCond fx) := by
  unfold fxFactorEvents
  by_cases hs : fxSkip fx
  · simp [hs]
  · by_cases hc : fxIterativeCond fx <;> simp [hs, hc]

theorem mem_eqFactorEvents_skip (e : EqBsData) (k i : Nat) :
    BuildEvent.skipCalibration AssetStage.eq k ∈ eqFactorEvents e i ↔ (k = i ∧ eqSkip e) := by
  unfold eqFactorEvents
  by_cases hs : eqSkip e
  · simp [hs]
  · by_cases hc : eqIterativeCond e <;> simp [hs, hc]

theorem mem_eqFactorEvents_attach (e : EqBsData) (k i : Nat) :
    BuildEvent.attachEngine AssetStage.eq k ∈ eqFactorEvents e i ↔ (k = i ∧ ¬ eqSkip e) := by
  unfold eqFactorEvents
  by_cases hs : eqSkip e
  · simp [hs]
  · by_cases hc : eqIterativeCond e <;> simp [hs, hc]

theorem mem_eqFactorEvents_iter (e : EqBsData) (k i : Nat) :
    BuildEvent.calibrateIterative AssetStage.eq k ∈ eqFactorEvents e i ↔
      (k = i ∧ ¬ eqSkip e ∧ eqIterativeCond e) := by
  unfold eqFactorEvents
  by_cases hs : eqSkip e
  · simp [hs]
  · by_cases hc : eqIterativeCond e <;> simp [hs, hc]

theorem mem_eqFactorEvents_glob (e : EqBsData) (k i : Nat) :
    BuildEvent.calibrateGlobal AssetStage.eq k ∈ eqFactorEvents e i ↔
      (k = i ∧ ¬ eqSkip e ∧ ¬ eqIterativeCond e) := by
  unfold eqFactorEvents
  by_cases hs : eqSkip e
  · simp [hs]
  · by_cases hc : eqIterativeCond e <;> simp [hs, hc]

theorem mem_infFactorEvents_skip (d : InfDkData) (k i : Nat) :
    BuildEvent.skipCalibration AssetStage.inf k ∈ infFactorEvents d i ↔ (k = i ∧ infSkip d) := by
  unfold infFactorEvents infCalEvent
  by_cases hs : infSkip d
  · simp [hs]
  · by_cases hv : infVolOnly d
    · by_cases hvi : infVolIterCond d <;> simp [hs, hv, hvi]
    · by_cases hr : infRevOnly d
      · by_cases hri : infRevIterCond d <;> simp [hs, hv, hr, hri]
      · simp [hs, hv, hr]

theorem mem_infFactorEvents_attach (d : InfDkData) (k i : Nat) :
    BuildEvent.attachEngine AssetStage.inf k ∈ infFactorEvents d i ↔ (k = i ∧ ¬ infSkip d) := by
  unfold infFactorEvents infCalEvent
  by_cases hs : infSkip d
  · simp [hs]
  · by_cases hv : infVolOnly d
    · by_cases hvi : infVolIterCond d <;> simp [hs, hv, hvi]
    · by_cases hr : infRevOnly d
      · by_cases hri : infRevIterCond d <;> simp [hs, hv, hr, hri]
      · simp [hs, hv, hr]

theorem mem_infFactorEvents_volIter (d : InfDkData) (k i : Nat) :
    BuildEvent.calibrateIterative AssetStage.inf k ∈ infFactorEvents d i ↔
      (k = i ∧ ¬ infSkip d ∧ infVolOnly d ∧ infVolIterCond d) := by
  unfold infFactorEvents infCalEvent
  by_cases hs : infSkip d
  · simp [hs]
  · by_cases hv : infVolOnly d
    · by_cases hvi : infVolIterCond d <;> simp [hs, hv, hvi]
    · by_cases hr : infRevOnly d
      · by_cases hri : infRevIterCond d <;> simp [hs, hv, hr, hri]
      · simp [hs, hv, hr]

theorem mem_infFactorEvents_volGlob (d : InfDkData) (k i : Nat) :
    BuildEvent.calibrateGlobal AssetStage.inf k ∈ infFactorEvents d i ↔
      (k = i ∧ ¬ infSkip d ∧ infVolOnly d ∧ ¬ infVolIterCond d) := by
  unfold infFactorEvents infCalEvent
  by_cases hs : infSkip d
  · simp [hs]
  · by_cases hv : infVolOnly d
    · by_cases hvi : infVolIterCond d <;> simp [hs, hv, hvi]
    · by_cases hr : infRevOnly d
      · by_cases hri : infRevIterCond d <;> simp [hs, hv, hr, hri]
      · simp [hs, hv, hr]

theorem mem_infFactorEvents_revIter (d : InfDkData) (k i : Nat) :
    BuildEvent.calibrateRevIterative k ∈ infFactorEvents d i ↔
      (k = i ∧ ¬ infSkip d ∧ infRevOnly d ∧ infRevIterCond d) := by
  unfold infFactorEvents infCalEvent
  by_cases hs : infSkip d
  · simp [hs]
  · by_cases hv : infVolOnly d
    · by_cases hvi : infVolIterCond d <;> simp [hs, hv, hv.1, hv.2, hvi, infRevOnly]
    · by_cases hr : infRevOnly d
      · by_cases hri : infRevIterCond d <;> simp [hs, hv, hr, hri]
      · simp [hs, hv, hr]

theorem mem_infFactorEvents_revGlob (d : InfDkData) (k i : Nat) :
    BuildEvent.calibrateRevGlobal k ∈ infFactorEvents d i ↔
      (k = i ∧ ¬ infSkip d ∧ infRevOnly d ∧ ¬ infRevIterCond d) := by
  unfold infFactorEvents infCalEvent
  by_cases hs : infSkip d
  · simp [hs]
  · by_cases hv : infVolOnly d
    · by_cases hvi : infVolIterCond d <;> simp [hs, hv, hv.1, hv.2, hvi, infRevOnly]
    · by_cases hr : infRevOnly d
      · by_cases hri : infRevIterCond d <;> simp [hs, hv, hr, hri]
      · simp [hs, hv, hr]

theorem mem_infFactorEvents_joint (d : InfDkData) (k i : Nat) :
    BuildEvent.calibrateJoint k ∈ infFactorEvents d i ↔
      (k = i ∧ ¬ infSkip d ∧ d.calibrateA = true ∧ d.calibrateH = true) := by
  unfold infFactorEvents infCalEvent
  by_cases hs : infSkip d
  · simp [hs]
  · by_cases hv : infVolOnly d
    · by_cases hvi : infVolIterCond d <;>
        simp [hs, hv.1, hv.2, hvi, infVolOnly, infRevOnly]
    · by_cases hr : infRevOnly d
      · by_cases hri : infRevIterCond d <;>
          simp [hs, hv, hr.1, hr.2, hri, infVolOnly, infRevOnly]
      · have hA : d.calibrateA = true := by
          cases hA : d.calibrateA with
          | true => rfl
          | false =>
            cases hH : d.calibrateH with
            | true => exact absurd ⟨hA, hH⟩ hr
            | false => exact absurd (Or.inl ⟨hA, hH⟩) hs
        have hH : d.calibrateH = true := by
          cases hH : d.calibrateH with
          | true => rfl
          | false => exact absurd ⟨hA, hH⟩ hv
        simp [hs, hv, hr, hA, hH]

theorem fxCalPhase_factor_behavior (tol : ℚ) (env : MarketEnv) (fxs : List FxBsData) (j : Nat)
    (hnone : (fxCalPhase tol env fxs j).2.2 = Option.none)
    (i : Nat) (fx : FxBsData) (hfx : fxs[i]? = some fx) :
    (BuildEvent.skipCalibration AssetStage.fx (j + i) ∈ (fxCalPhase tol env fxs j).1 ↔ fxSkip fx) ∧
    (BuildEvent.attachEngine AssetStage.fx (j + i) ∈ (fxCalPhase tol env fxs j).1 ↔ ¬ fxSkip fx) ∧
    (BuildEvent.calibrateIterative AssetStage.fx (j + i) ∈ (fxCalPhase tol env fxs j).1 ↔
      (¬ fxSkip fx ∧ fxIterativeCond fx)) ∧
    (BuildEvent.calibrateGlobal AssetStage.fx (j + i) ∈ (fxCalPhase tol env fxs j).1 ↔
      (¬ fxSkip fx ∧ ¬ fxIterativeCond fx)) := by
  have hev := fxCalPhase_events_of_none tol env fxs j hnone
  refine ⟨?_, ?_, ?_, ?_⟩
  · rw [hev]
    simp only [mem_fxFactorEvents_skip]
    exact exists_factor_iff fxs j i fx hfx _
  · rw [hev]
    simp only [mem_fxFactorEvents_attach]
    exact exists_factor_iff fxs j i fx hfx _
  · rw [hev]
    simp only [mem_fxFactorEvents_iter]
    exact exists_factor_iff fxs j i fx hfx _
  · rw [hev]
    simp only [mem_fxFactorEvents_glob]
    exact exists_factor_iff fxs j i fx hfx _

theorem eqCalPhase_factor_behavior (tol : ℚ) (env : MarketEnv) (eqs : List EqBsData) (j : Nat)
    (hnone : (eqCalPhase tol env eqs j).2.2 = Option.none)
    (i : Nat) (e : EqBsData) (he : eqs[i]? = some e) :
    (BuildEvent.skipCalibration AssetStage.eq (j + i) ∈ (eqCalPhase tol env eqs j).1 ↔ eqSkip e) ∧
    (BuildEvent.attachEngine AssetStage.eq (j + i) ∈ (eqCalPhase tol env eqs j).1 ↔ ¬ eqSkip e) ∧
    (BuildEvent.calibrateIterative AssetStage.eq (j + i) ∈ (eqCalPhase tol env eqs j).1 ↔
      (¬ eqSkip e ∧ eqIterativeCond e)) ∧
    (BuildEvent.calibrateGlobal AssetStage.eq (j + i) ∈ (eqCalPhase tol env eqs j).1 ↔
      (¬ eqSkip e ∧ ¬ eqIterativeCond e)) := by
  have hev := eqCalPhase_events_of_none tol env eqs j hnone
  refine ⟨?_, ?_, ?_, ?_⟩
  · rw [hev]
    simp only [mem_eqFactorEvents_skip]
    exact exists_factor_iff eqs j i e he _
  · rw [hev]
    simp only [mem_eqFactorEvents_attach]
    exact exists_factor_iff eqs j i e he _
  · rw [hev]
    simp only [mem_eqFactorEvents_iter]
    exact exists_factor_iff eqs j i e he _
  · rw [hev]
    simp only [mem_eqFactorEvents_glob]
    exact exists_factor_iff eqs j i e he _

theorem infCalPhase_factor_behavior (tol : ℚ) (env : MarketEnv) (ds : List InfDkData) (j : Nat)
    (hnone : (infCalPhase tol env ds j).2.2 = Option.none)
    (i : Nat) (d : InfDkData) (hd : ds[i]? = some d) :
    (BuildEvent.skipCalibration AssetStage.inf (j + i) ∈ (infCalPhase tol env ds j).1 ↔ infSkip d) ∧
    (BuildEvent.attachEngine AssetStage.inf (j + i) ∈ (infCalPhase tol env ds j).1 ↔ ¬ infSkip d) ∧
    (BuildEvent.calibrateIterative AssetStage.inf (j + i) ∈ (infCalPhase tol env ds j).1 ↔
      (¬ infSkip d ∧ infVolOnly d ∧ infVolIterCond d)) ∧
    (BuildEvent.calibrateGlobal AssetStage.inf (j + i) ∈ (infCalPhase tol env ds j).1 ↔
      (¬ infSkip d ∧ infVolOnly d ∧ ¬ infVolIterCond d)) ∧
    (BuildEvent.calibrateRevIterative (j + i) ∈ (infCalPhase tol env ds j).1 ↔
      (¬ infSkip d ∧ infRevOnly d ∧ infRevIterCond d)) ∧
    (BuildEvent.calibrateRevGlobal (j + i) ∈ (infCalPhase tol env ds j).1 ↔
      (¬ infSkip d ∧ infRevOnly d ∧ ¬ infRevIterCond d)) ∧
    (BuildEvent.calibrateJoint (j + i) ∈ (infCalPhase tol env ds j).1 ↔
      (¬ infSkip d ∧ d.calibrateA = true ∧ d.calibrateH = true)) := by
  have hev := infCalPhase_events_of_none tol env ds j hnone
  refine ⟨?_, ?_, ?_, ?_, ?_, ?_, ?_⟩
  · rw [hev]
    simp only [mem_infFactorEvents_skip]
    exact exists_factor_iff ds j i d hd _
  · rw [hev]
    simp only [mem_infFactorEvents_attach]
    exact exists_factor_iff ds j i d hd _
  · rw [hev]
    simp only [mem_infFactorEvents_volIter]
    exact exists_factor_iff ds j i d hd _
  · rw [hev]
    simp only [mem_infFactorEvents_volGlob]
    exact exists_factor_iff ds j i d hd _
  · rw [hev]
    simp only [mem_infFactorEvents_revIter]
    exact exists_factor_iff ds j i d hd _
  · rw [hev]
    simp only [mem_infFactorEvents_revGlob]
    exact exists_factor_iff ds j i d hd _
  · rw [hev]
    simp only [mem_infFactorEvents_joint]
    exact exists_factor_iff ds j i d hd _

theorem fxBuildPhase_error_shape (c : List String) (d : String) :
    ∀ (fxs : List FxBsData) (j : Nat) (e : BuildError),
      (fxBuildPhase c d fxs j).2 = some e →
        ∃ i, e = BuildError.fxIrCurrencyMismatch i ∨ e = BuildError.fxDomesticCurrencyMismatch i := by
  intro fxs
  induction fxs with
  | nil => intro j e h; simp [fxBuildPhase] at h
  | cons fx rest ih =>
    intro j e h
    simp only [fxBuildPhase] at h
    split at h
    · simp only [Option.some.injEq] at h
      exact ⟨j, Or.inl h.symm⟩
    · split at h
      · simp only [Option.some.injEq] at h
        exact ⟨j, Or.inr h.symm⟩
      · exact ih (j + 1) e h

theorem eqBuildPhase_error_shape (c : List String) :
    ∀ (eqs : List EqBsData) (j : Nat) (e : BuildError),
      (eqBuildPhase c eqs j).2 = some e → ∃ i, e = BuildError.eqCurrencyNotCovered i := by
  intro eqs
  induction eqs with
  | nil => intro j e h; simp [eqBuildPhase] at h
  | cons q rest ih =>
    intro j e h
    simp only [eqBuildPhase] at h
    split at h
    · simp only [Option.some.injEq] at h
      exact ⟨j, h.symm⟩
    · exact ih (j + 1) e h

theorem buildModel_ok_inv (cfg : CrossAssetModelData) (env : MarketEnv)
    (out : BuildOutput) (tr : List BuildEvent)
    (h : buildModel cfg env = (Except.ok out, tr)) :
    cfg.irConfigs.length ≠ 0 ∧ cfg.irConfigs.length = cfg.fxConfigs.length + 1 ∧
    (fxBuildResult cfg).2 = Option.none ∧ (eqBuildResult cfg).2 = Option.none ∧
    (fxCalResult cfg env).2.2 = Option.none ∧ (eqCalResult cfg env).2.2 = Option.none ∧
    (infCalResult cfg env).2.2 = Option.none ∧
    out = { swaptionCalibrationErrors := swaptionErrs env cfg.irConfigs.length,
            fxOptionCalibrationErrors := (fxCalResult cfg env).2.1,
            eqOptionCalibrationErrors := (eqCalResult cfg env).2.1,
            infCapFloorCalibrationErrors := (infCalResult cfg env).2.1 } ∧
    tr = irBuildEvents cfg.irConfigs.length ++ (fxBuildResult cfg).1 ++ (eqBuildResult cfg).1 ++
      infBuildEvents cfg.infConfigs.length ++
      [BuildEvent.assembleCorrelationMatrix, BuildEvent.constructModel] ++
      recordIrEvents cfg.irConfigs.length ++
      relinkEvents cfg.irConfigs.length CfgLabel.fxCalibration ++ (fxCalResult cfg env).1 ++
      relinkEvents cfg.irConfigs.length CfgLabel.eqCalibration ++ (eqCalResult cfg env).1 ++
      relinkEvents cfg.irConfigs.length CfgLabel.finalModel ++ (infCalResult cfg env).1 ++
      relinkEvents cfg.irConfigs.length CfgLabel.finalModel ++ [BuildEvent.modelUpdate] := by
  by_cases h0 : cfg.irConfigs.length = 0
  · exfalso; simp [buildModel, h0] at h
  by_cases h1 : cfg.irConfigs.length = cfg.fxConfigs.length + 1
  · have h2 : ¬((currencies cfg).length = 0) := by simpa [currencies] using h0
    have h3 : ¬(cfg.fxConfigs.length ≠ cfg.irConfigs.length - 1) := by omega
    unfold buildModel at h
    rw [if_neg h0, if_neg (not_ne_iff.mpr h1), if_neg h2] at h
    cases hfxB : (fxBuildResult cfg).2 with
    | some e => rw [hfxB] at h; simp at h
    | none =>
      rw [hfxB] at h
      cases heqB : (eqBuildResult cfg).2 with
      | some e => rw [heqB] at h; simp at h
      | none =>
        rw [heqB] at h
        simp only at h
        rw [if_neg h3] at h
        cases hfxC : (fxCalResult cfg env).2.2 with
        | some e => rw [hfxC] at h; simp at h
        | none =>
          rw [hfxC] at h
          cases heqC : (eqCalResult cfg env).2.2 with
          | some e => rw [heqC] at h; simp at h
          | none =>
            rw [heqC] at h
            cases hinfC : (infCalResult cfg env).2.2 with
            | some e => rw [hinfC] at h; simp at h
            | none =>
              rw [hinfC] at h
              simp only [Prod.mk.injEq, Except.ok.injEq] at h
              exact ⟨h0, h1, rfl, rfl, rfl, rfl, rfl, h.1.symm, h.2.symm⟩
  · exfalso
    simp [buildModel, h0, h1] at h

theorem buildModel_error_inv (cfg : CrossAssetModelData) (env : MarketEnv) (e : BuildError)
    (h1 : cfg.irConfigs.length = cfg.fxConfigs.length + 1)
    (h : (buildModel cfg env).1 = Except.error e) :
    (fxBuildResult cfg).2 = some e ∨ (eqBuildResult cfg).2 = some e ∨
    (fxCalResult cfg env).2.2 = some e ∨ (eqCalResult cfg env).2.2 = some e ∨
    (infCalResult cfg env).2.2 = some e := by
  have h0 : ¬(cfg.irConfigs.length = 0) := by omega
  have h2 : ¬((currencies cfg).length = 0) := by simpa [currencies] using h0
  have h3 : ¬(cfg.fxConfigs.length ≠ cfg.irConfigs.length - 1) := by omega
  unfold buildModel at h
  rw [if_neg h0, if_neg (not_ne_iff.mpr h1), if_neg h2] at h
  cases hfxB : (fxBuildResult cfg).2 with
  | some e' =>
    rw [hfxB] at h
    simp only [Except.error.injEq] at h
    exact Or.inl (by rw [h])
  | none =>
    rw [hfxB] at h
    cases heqB : (eqBuildResult cfg).2 with
    | some e' =>
      rw [heqB] at h
      simp only [Except.error.injEq] at h
      exact Or.inr (Or.inl (by rw [h]))
    | none =>
      rw [heqB] at h
      simp only at h
      rw [if_neg h3] at h
      cases hfxC : (fxCalResult cfg env).2.2 with
      | some e' =>
        rw [hfxC] at h
        simp only [Except.error.injEq] at h
        exact Or.inr (Or.inr (Or.inl (by rw [h])))
      | none =>
        rw [hfxC] at h
        cases heqC : (eqCalResult cfg env).2.2 with
        | some e' =>
          rw [heqC] at h
          simp only [Except.error.injEq] at h
          exact Or.inr (Or.inr (Or.inr (Or.inl (by rw [h]))))
        | none =>
          rw [heqC] at h
          cases hinfC : (infCalResult cfg env).2.2 with
          | some e' =>
            rw [hinfC] at h
            simp only [Except.error.injEq] at h
            exact Or.inr (Or.inr (Or.inr (Or.inr (by rw [h]))))
          | none =>
            rw [hinfC] at h
            simp at h

theorem buildModel_fxBuild_error (cfg : CrossAssetModelData) (env : MarketEnv) (e : BuildError)
    (h1 : cfg.irConfigs.length = cfg.fxConfigs.length + 1)
    (hfxB : (fxBuildResult cfg).2 = some e) :
    buildModel cfg env =
      (Except.error e, irBuildEvents cfg.irConfigs.length ++ (fxBuildResult cfg).1) := by
  have h0 : ¬(cfg.irConfigs.length = 0) := by omega
  have h2 : ¬((currencies cfg).length = 0) := by simpa [currencies] using h0
  unfold buildModel
  rw [if_neg h0, if_neg (not_ne_iff.mpr h1), if_neg h2, hfxB]

theorem buildModel_eqBuild_error (cfg : CrossAssetModelData) (env : MarketEnv) (e : BuildError)
    (h1 : cfg.irConfigs.length = cfg.fxConfigs.length + 1)
    (hfxB : (fxBuildResult cfg).2 = Option.none)
    (heqB : (eqBuildResult cfg).2 = some e) :
    buildModel cfg env =
      (Except.error e,
       irBuildEvents cfg.irConfigs.length ++ (fxBuildResult cfg).1 ++ (eqBuildResult cfg).1) := by
  have h0 : ¬(cfg.irConfigs.length = 0) := by omega
  have h2 : ¬((currencies cfg).length = 0) := by simpa [currencies] using h0
  unfold buildModel
  rw [if_neg h0, if_neg (not_ne_iff.mpr h1), if_neg h2, hfxB, heqB]

theorem buildModel_trace_shape (cfg : CrossAssetModelData) (env : MarketEnv)
    (h1 : cfg.irConfigs.length = cfg.fxConfigs.length + 1) :
    ∃ rest, (buildModel cfg env).2 = irBuildEvents cfg.irConfigs.length ++ rest := by
  have h0 : ¬(cfg.irConfigs.length = 0) := by omega
  have h2 : ¬((currencies cfg).length = 0) := by simpa [currencies] using h0
  have h3 : ¬(cfg.fxConfigs.length ≠ cfg.irConfigs.length - 1) := by omega
  unfold buildModel
  rw [if_neg h0, if_neg (not_ne_iff.mpr h1), if_neg h2]
  cases hfxB : (fxBuildResult cfg).2 with
  | some e => exact ⟨_, rfl⟩
  | none =>
    cases heqB : (eqBuildResult cfg).2 with
    | some e => exact ⟨(fxBuildResult cfg).1 ++ (eqBuildResult cfg).1, by simp⟩
    | none =>
      simp only
      rw [if_neg h3]
      cases hfxC : (fxCalResult cfg env).2.2 with
      | some e =>
        exact ⟨(fxBuildResult cfg).1 ++ (eqBuildResult cfg).1 ++
          infBuildEvents cfg.infConfigs.length ++
          [BuildEvent.assembleCorrelationMatrix, BuildEvent.constructModel] ++
          recordIrEvents cfg.irConfigs.length ++
          relinkEvents cfg.irConfigs.length CfgLabel.fxCalibration ++ (fxCalResult cfg env).1,
          by simp⟩
      | none =>
        cases heqC : (eqCalResult cfg env).2.2 with
        | some e =>
          exact ⟨(fxBuildResult cfg).1 ++ (eqBuildResult cfg).1 ++
            infBuildEvents cfg.infConfigs.length ++
            [BuildEvent.assembleCorrelationMatrix, BuildEvent.constructModel] ++
            recordIrEvents cfg.irConfigs.length ++
            relinkEvents cfg.irConfigs.length CfgLabel.fxCalibration ++ (fxCalResult cfg env).1 ++
            relinkEvents cfg.irConfigs.length CfgLabel.eqCalibration ++ (eqCalResult cfg env).1,
            by simp⟩
        | none =>
          cases hinfC : (infCalResult cfg env).2.2 with
          | some e =>
            exact ⟨(fxBuildResult cfg).1 ++ (eqBuildResult cfg).1 ++
              infBuildEvents cfg.infConfigs.length ++
              [BuildEvent.assembleCorrelationMatrix, BuildEvent.constructModel] ++
              recordIrEvents cfg.irConfigs.length ++
              relinkEvents cfg.irConfigs.length CfgLabel.fxCalibration ++ (fxCalResult cfg env).1 ++
              relinkEvents cfg.irConfigs.length CfgLabel.eqCalibration ++ (eqCalResult cfg env).1 ++
              relinkEvents cfg.irConfigs.length CfgLabel.finalModel ++ (infCalResult cfg env).1,
              by simp⟩
          | none =>
            exact ⟨(fxBuildResult cfg).1 ++ (eqBuildResult cfg).1 ++
              infBuildEvents cfg.infConfigs.length ++
              [BuildEvent.assembleCorrelationMatrix, BuildEvent.constructModel] ++
              recordIrEvents cfg.irConfigs.length ++
              relinkEvents cfg.irConfigs.length CfgLabel.fxCalibration ++ (fxCalResult cfg env).1 ++
              relinkEvents cfg.irConfigs.length CfgLabel.eqCalibration ++ (eqCalResult cfg env).1 ++
              relinkEvents cfg.irConfigs.length CfgLabel.finalModel ++ (infCalResult cfg env).1 ++
              relinkEvents cfg.irConfigs.length CfgLabel.finalModel ++ [BuildEvent.modelUpdate],
              by simp⟩

theorem mem_recordIrEvents {ev : BuildEvent} {n : Nat} (h : ev ∈ recordIrEvents n) :
    ∃ k, ev = BuildEvent.recordIrError k := by
  simp only [recordIrEvents, List.mem_map] at h
  rcases h with ⟨k, -, hk⟩
  exact ⟨k, hk.symm⟩

theorem fxFactorEvents_shape (fx : FxBsData) (i : Nat) (ev : BuildEvent)
    (h : ev ∈ fxFactorEvents fx i) :
    ev = BuildEvent.skipCalibration AssetStage.fx i ∨
    ev = BuildEvent.attachEngine AssetStage.fx i ∨
    ev = BuildEvent.calibrateIterative AssetStage.fx i ∨
    ev = BuildEvent.calibrateGlobal AssetStage.fx i ∨
    ev = BuildEvent.recordCalibrationError AssetStage.fx i := by
  unfold fxFactorEvents at h
  by_cases hs : fxSkip fx
  · simp [hs] at h
    tauto
  · by_cases hc : fxIterativeCond fx <;> simp [hs, hc] at h <;> tauto

theorem eqFactorEvents_shape (q : EqBsData) (i : Nat) (ev : BuildEvent)
    (h : ev ∈ eqFactorEvents q i) :
    ev = BuildEvent.skipCalibration AssetStage.eq i ∨
    ev = BuildEvent.attachEngine AssetStage.eq i ∨
    ev = BuildEvent.calibrateIterative AssetStage.eq i ∨
    ev = BuildEvent.calibrateGlobal AssetStage.eq i ∨
    ev = BuildEvent.recordCalibrationError AssetStage.eq i := by
  unfold eqFactorEvents at h
  by_cases hs : eqSkip q
  · simp [hs] at h
    tauto
  · by_cases hc : eqIterativeCond q <;> simp [hs, hc] at h <;> tauto

theorem infFactorEvents_shape (d : InfDkData) (i : Nat) (ev : BuildEvent)
    (h : ev ∈ infFactorEvents d i) :
    ev = BuildEvent.skipCalibration AssetStage.inf i ∨
    ev = BuildEvent.attachEngine AssetStage.inf i ∨
    ev = BuildEvent.calibrateIterative AssetStage.inf i ∨
    ev = BuildEvent.calibrateGlobal AssetStage.inf i ∨
    ev = BuildEvent.calibrateRevIterative i ∨
    ev = BuildEvent.calibrateRevGlobal i ∨
    ev = BuildEvent.calibrateJoint i ∨
    ev = BuildEvent.recordCalibrationError AssetStage.inf i := by
  unfold infFactorEvents infCalEvent at h
  by_cases hs : infSkip d
  · simp [hs] at h
    tauto
  · by_cases hv : infVolOnly d
    · by_cases hvi : infVolIterCond d <;> simp [hs, hv, hvi] at h <;> tauto
    · by_cases hr : infRevOnly d
      · by_cases hri : infRevIterCond d <;> simp [hs, hv, hr, hri] at h <;> tauto
      · simp [hs, hv, hr] at h
        tauto

/-- After a rebuild decision nothing is stale: either nothing was rebuilt
(so nothing was stale already), or the rebuild produced fresh sub-builders
and consumed the observer flag. -/
theorem requiresRecalibration_after (env : RebuildEnv) (s : BuilderState) :
    requiresRecalibration (performCalculations env s).1 = false := by
  unfold performCalculations
  by_cases h : requiresRecalibration s
  · simp only [h, if_pos]
    simp [requiresRecalibration, List.any_eq_true, List.mem_replicate]
  · rw [if_neg h]
    simp at h
    exact h

/-!  Claim theorems. -/

/-- **C1**: whenever the number of FX factor configurations does not equal
the number of rate factor configurations minus one, the model build fails
with a ConfigurationError (one of the count-mismatch requirements) before
any calibration runs — indeed before any build step, the trace being
empty.  In the embedding the assembled FX/rate parametrization counts
always equal the respective configuration counts (one parametrization is
pushed per configuration), so the line-255 requirement on parametrization
counts is the same condition and is likewise covered.  When the counts are
consistent the build proceeds: no count-mismatch error can be returned and
the trace begins with the rate sub-model construction events. -/
theorem irFxFactorCountGate (cfg : CrossAssetModelData) (env : MarketEnv) :
    ((cfg.fxConfigs.length : ℤ) ≠ (cfg.irConfigs.length : ℤ) - 1 →
      ∃ e : BuildError, (buildModel cfg env).1 = Except.error e ∧
        e.isCountMismatch = true ∧ e.isConfigurationError = true ∧
        (buildModel cfg env).2 = []) ∧
    ((cfg.fxConfigs.length : ℤ) = (cfg.irConfigs.length : ℤ) - 1 →
      (∀ e : BuildError, (buildModel cfg env).1 = Except.error e → e.isCountMismatch = false) ∧
      ∃ rest, (buildModel cfg env).2 = irBuildEvents cfg.irConfigs.length ++ rest) := by
  constructor
  · intro hne
    by_cases h0 : cfg.irConfigs.length = 0
    · refine ⟨BuildError.missingIrConfigurations, ?_, rfl, rfl, ?_⟩ <;> simp [buildModel, h0]
    · have h1 : cfg.irConfigs.length ≠ cfg.fxConfigs.length + 1 := by
        intro h
        exact hne (by omega)
      refine ⟨BuildError.irFxConfigSizeMismatch cfg.fxConfigs.length cfg.irConfigs.length,
        ?_, rfl, rfl, ?_⟩ <;> simp [buildModel, h0, h1]
  · intro heq
    have h1 : cfg.irConfigs.length = cfg.fxConfigs.length + 1 := by omega
    refine ⟨?_, buildModel_trace_shape cfg env h1⟩
    intro e he
    rcases buildModel_error_inv cfg env e h1 he with h | h | h | h | h
    · have h' : (fxBuildPhase (currencies cfg) (domesticCcy cfg) cfg.fxConfigs 0).2 = some e := h
      rcases fxBuildPhase_error_shape _ _ _ _ _ h' with ⟨i, hi | hi⟩ <;> subst hi <;> rfl
    · have h' : (eqBuildPhase (currencies cfg) cfg.eqConfigs 0).2 = some e := h
      rcases eqBuildPhase_error_shape _ _ _ _ h' with ⟨i, hi⟩
      subst hi; rfl
    · have h' : (fxCalPhase cfg.bootstrapTolerance env cfg.fxConfigs 0).2.2 = some e := h
      rcases fxCalPhase_fail_some _ _ _ _ _ h' with ⟨i, fx, -, hfail⟩
      rcases fxFactorFail_some _ _ _ _ _ hfail with ⟨-, -, -, he'⟩
      subst he'; rfl
    · have h' : (eqCalPhase cfg.bootstrapTolerance env cfg.eqConfigs 0).2.2 = some e := h
      rcases eqCalPhase_fail_some _ _ _ _ _ h' with ⟨i, q, -, hfail⟩
      rcases eqFactorFail_some _ _ _ _ _ hfail with ⟨-, -, -, he'⟩
      subst he'; rfl
    · have h' : (infCalPhase cfg.bootstrapTolerance env cfg.infConfigs 0).2.2 = some e := h
      rcases infCalPhase_fail_some _ _ _ _ _ h' with ⟨i, d, -, hfail⟩
      rcases infFactorFail_some _ _ _ _ _ hfail with ⟨-, -, -, he'⟩
      subst he'; rfl

/-- Configuration with a count mismatch (2 rate factors, no FX factor) and
a consistent one, used to instantiate the C1 gate. -/
def cfgMismatch : CrossAssetModelData := ⟨[⟨"EUR"⟩, ⟨"USD"⟩], [], [], [], 1⟩

/-- A consistent two-currency configuration with one FX factor. -/
def cfgTwoCcy : CrossAssetModelData :=
  ⟨[⟨"EUR"⟩, ⟨"USD"⟩],
   [⟨"USD", "EUR", CalibrationType.bootstrap, true, ParamType.piecewise⟩], [], [], 1⟩

/-- The all-zero residual environment. -/
def envZero : MarketEnv := ⟨fun _ => 0, fun _ => 0, fun _ => 0, fun _ => 0⟩

/-- Witness for the C1 gate at a concrete mismatching configuration. -/
theorem irFxFactorCountGate_app :
    ∃ e : BuildError, (buildModel cfgMismatch envZero).1 = Except.error e ∧
      e.isCountMismatch = true ∧ e.isConfigurationError = true ∧
      (buildModel cfgMismatch envZero).2 = [] :=
  (irFxFactorCountGate cfgMismatch envZero).1 (by decide)

/-- **C10**: on a configuration with consistent factor counts, the build
validates currency consistency — FX factor `i` must have foreign currency
equal to the currency of rate parametrization `i+1` and domestic currency
equal to the first (domestic) rate currency, and every equity factor's
currency must be among the configured rate currencies — and any violation
makes the build fail with a ConfigurationError before the joint model is
constructed (no `constructModel` step appears in the trace); conversely a
successful build implies every factor satisfies these conditions. -/
theorem currencyConsistencyGate (cfg : CrossAssetModelData) (env : MarketEnv)
    (h1 : cfg.irConfigs.length = cfg.fxConfigs.length + 1) :
    (((∃ (i : Nat) (fx : FxBsData), cfg.fxConfigs[i]? = some fx ∧
        (fx.foreignCcy ≠ (currencies cfg).getD (i + 1) "" ∨ fx.domesticCcy ≠ domesticCcy cfg)) ∨
      (∃ (i : Nat) (q : EqBsData), cfg.eqConfigs[i]? = some q ∧ q.currency ∉ currencies cfg)) →
      ∃ e : BuildError, (buildModel cfg env).1 = Except.error e ∧
        e.isConfigurationError = true ∧
        BuildEvent.constructModel ∉ (buildModel cfg env).2) ∧
    (∀ out tr, buildModel cfg env = (Except.ok out, tr) →
      (∀ (i : Nat) (fx : FxBsData), cfg.fxConfigs[i]? = some fx →
        fx.foreignCcy = (currencies cfg).getD (i + 1) "" ∧ fx.domesticCcy = domesticCcy cfg) ∧
      (∀ (i : Nat) (q : EqBsData), cfg.eqConfigs[i]? = some q → q.currency ∈ currencies cfg)) := by
  constructor
  · intro hviol
    cases hfxB : (fxBuildResult cfg).2 with
    | some e =>
      have hbm := buildModel_fxBuild_error cfg env e h1 hfxB
      refine ⟨e, by rw [hbm], ?_, ?_⟩
      · exact fxBuildPhase_error_config _ _ _ _ _ hfxB
      · rw [hbm]
        intro hmem
        rcases List.mem_append.mp hmem with hm | hm
        · rcases mem_irBuildEvents hm with ⟨k, hk⟩
          exact BuildEvent.noConfusion hk
        · rcases fxBuildPhase_events_shape _ _ _ _ _ hm with ⟨k, hk⟩
          exact BuildEvent.noConfusion hk
    | none =>
      have hfxok := (fxBuildPhase_none_iff (currencies cfg) (domesticCcy cfg)
        cfg.fxConfigs 0).mp hfxB
      rcases hviol with ⟨i, fx, hfx, hbad⟩ | heqviol
      · exfalso
        have := hfxok i fx hfx
        rcases hbad with hb | hb
        · exact hb (by simpa using this.1)
        · exact hb this.2
      · cases heqB : (eqBuildResult cfg).2 with
        | some e =>
          have hbm := buildModel_eqBuild_error cfg env e h1 hfxB heqB
          refine ⟨e, by rw [hbm], ?_, ?_⟩
          · exact eqBuildPhase_error_config _ _ _ _ heqB
          · rw [hbm]
            intro hmem
            rcases List.mem_append.mp hmem with hm | hm
            · rcases List.mem_append.mp hm with hm' | hm'
              · rcases mem_irBuildEvents hm' with ⟨k, hk⟩
                exact BuildEvent.noConfusion hk
              · rcases fxBuildPhase_events_shape _ _ _ _ _ hm' with ⟨k, hk⟩
                exact BuildEvent.noConfusion hk
            · rcases eqBuildPhase_events_shape _ _ _ _ hm with ⟨k, hk⟩
              exact BuildEvent.noConfusion hk
        | none =>
          exfalso
          have heqok := (eqBuildPhase_none_iff (currencies cfg) cfg.eqConfigs 0).mp heqB
          rcases heqviol with ⟨i, q, hq, hbad⟩
          exact hbad (heqok i q hq)
  · intro out tr h
    obtain ⟨-, -, hfxB, heqB, -, -, -, -, -⟩ := buildModel_ok_inv cfg env out tr h
    constructor
    · intro i fx hfx
      have := (fxBuildPhase_none_iff (currencies cfg) (domesticCcy cfg)
        cfg.fxConfigs 0).mp hfxB i fx hfx
      exact ⟨by simpa using this.1, this.2⟩
    · intro i q hq
      exact (eqBuildPhase_none_iff (currencies cfg) cfg.eqConfigs 0).mp heqB i q hq

/-- A two-currency configuration whose FX factor names the wrong foreign
currency. -/
def cfgBadCcy : CrossAssetModelData :=
  ⟨[⟨"EUR"⟩, ⟨"USD"⟩],
   [⟨"GBP", "EUR", CalibrationType.bootstrap, true, ParamType.piecewise⟩], [], [], 1⟩

/-- Witness for the C10 currency gate at a concrete violating
configuration. -/
theorem currencyConsistencyGate_app :
    ∃ e : BuildError, (buildModel cfgBadCcy envZero).1 = Except.error e ∧
      e.isConfigurationError = true ∧
      BuildEvent.constructModel ∉ (buildModel cfgBadCcy envZero).2 :=
  (currencyConsistencyGate cfgBadCcy envZero (by decide)).1
    (Or.inl ⟨0, ⟨"GBP", "EUR", CalibrationType.bootstrap, true, ParamType.piecewise⟩,
      by decide, by decide⟩)

/-- Residual environment whose FX calibration error is exactly 1. -/
def envFxOne : MarketEnv := ⟨fun _ => 0, fun _ => 1, fun _ => 0, fun _ => 0⟩

/-- **C2 counterexample**: with one Bootstrap FX factor, tolerance 1 and a
recorded calibration error of exactly 1, the error magnitude does not
exceed the tolerance, yet the build raises a CalibrationToleranceError:
the source gate is `QL_REQUIRE(fabs(err) < tol)` (line 335), which fails
already at equality, so "fails exactly when the magnitude exceeds the
tolerance" is false. -/
theorem bootstrapToleranceBoundary :
    ¬(|envFxOne.fxError 0| > cfgTwoCcy.bootstrapTolerance) ∧
    (buildModel cfgTwoCcy envFxOne).1 =
      Except.error (BuildError.calibrationTolerance AssetStage.fx 0 1 1) := by
  constructor
  · decide
  · rfl

/-- **C2 (amended)**: in the calibration cascade, a
CalibrationToleranceError is raised exactly when some non-skipped FX,
equity or inflation factor with configured calibration type Bootstrap has
a recorded calibration-error magnitude **at least** (≥, not strictly
exceeding) the configured bootstrap tolerance; any such failure carries
the factor's recorded error and the configured tolerance, and only
Bootstrap-type factors can trigger it (Global-mode residuals never fail).
Rate-factor calibration errors are recorded from the rate sub-builders
into the swaption error vector with no tolerance gate at the orchestrator
level. -/
theorem bootstrapToleranceGate (cfg : CrossAssetModelData) (env : MarketEnv) :
    (∀ (st : AssetStage) (i : Nat) (err tol : ℚ),
      (buildModel cfg env).1 = Except.error (BuildError.calibrationTolerance st i err tol) →
        tol = cfg.bootstrapTolerance ∧ |err| ≥ cfg.bootstrapTolerance ∧
        (st = AssetStage.fx → ∃ fx : FxBsData, cfg.fxConfigs[i]? = some fx ∧ ¬ fxSkip fx ∧
          fx.calibrationType = CalibrationType.bootstrap ∧ err = env.fxError i) ∧
        (st = AssetStage.eq → ∃ q : EqBsData, cfg.eqConfigs[i]? = some q ∧ ¬ eqSkip q ∧
          q.calibrationType = CalibrationType.bootstrap ∧ err = env.eqError i) ∧
        (st = AssetStage.inf → ∃ d : InfDkData, cfg.infConfigs[i]? = some d ∧ ¬ infSkip d ∧
          d.calibrationType = CalibrationType.bootstrap ∧ err = env.infError i)) ∧
    (∀ out tr, buildModel cfg env = (Except.ok out, tr) →
      out.swaptionCalibrationErrors = swaptionErrs env cfg.irConfigs.length ∧
      (∀ (i : Nat) (fx : FxBsData), cfg.fxConfigs[i]? = some fx → ¬ fxSkip fx →
        fx.calibrationType = CalibrationType.bootstrap →
          |env.fxError i| < cfg.bootstrapTolerance) ∧
      (∀ (i : Nat) (q : EqBsData), cfg.eqConfigs[i]? = some q → ¬ eqSkip q →
        q.calibrationType = CalibrationType.bootstrap →
          |env.eqError i| < cfg.bootstrapTolerance) ∧
      (∀ (i : Nat) (d : InfDkData), cfg.infConfigs[i]? = some d → ¬ infSkip d →
        d.calibrationType = CalibrationType.bootstrap →
          |env.infError i| < cfg.bootstrapTolerance)) := by
  constructor
  · intro st i err tol h
    by_cases h1 : cfg.irConfigs.length = cfg.fxConfigs.length + 1
    · rcases buildModel_error_inv cfg env _ h1 h with hc | hc | hc | hc | hc
      · have h' : (fxBuildPhase (currencies cfg) (domesticCcy cfg) cfg.fxConfigs 0).2 =
            some (BuildError.calibrationTolerance st i err tol) := hc
        rcases fxBuildPhase_error_shape _ _ _ _ _ h' with ⟨k, hk | hk⟩ <;>
          exact BuildError.noConfusion hk
      · have h' : (eqBuildPhase (currencies cfg) cfg.eqConfigs 0).2 =
            some (BuildError.calibrationTolerance st i err tol) := hc
        rcases eqBuildPhase_error_shape _ _ _ _ h' with ⟨k, hk⟩
        exact BuildError.noConfusion hk
      · have h' : (fxCalPhase cfg.bootstrapTolerance env cfg.fxConfigs 0).2.2 =
            some (BuildError.calibrationTolerance st i err tol) := hc
        rcases fxCalPhase_fail_some _ _ _ _ _ h' with ⟨k, fx, hget, hfail⟩
        rcases fxFactorFail_some _ _ _ _ _ hfail with ⟨hns, hbt, hge, he⟩
        rw [show (0 : Nat) + k = k from Nat.zero_add k] at he hge
        have hst : st = AssetStage.fx := by injection he
        have hik : i = k := by injection he with h1' h2'
        have herr : err = env.fxError k := by injection he with h1' h2' h3'
        have htol : tol = cfg.bootstrapTolerance := by injection he with h1' h2' h3' h4'
        subst hik
        refine ⟨htol, ?_, ?_, ?_, ?_⟩
        · rw [herr]; exact not_lt.mp hge
        · intro _; exact ⟨fx, hget, hns, hbt, herr⟩
        · intro hcon; rw [hst] at hcon; exact AssetStage.noConfusion hcon
        · intro hcon; rw [hst] at hcon; exact AssetStage.noConfusion hcon
      · have h' : (eqCalPhase cfg.bootstrapTolerance env cfg.eqConfigs 0).2.2 =
            some (BuildError.calibrationTolerance st i err tol) := hc
        rcases eqCalPhase_fail_some _ _ _ _ _ h' with ⟨k, q, hget, hfail⟩
        rcases eqFactorFail_some _ _ _ _ _ hfail with ⟨hns, hbt, hge, he⟩
        rw [show (0 : Nat) + k = k from Nat.zero_add k] at he hge
        have hst : st = AssetStage.eq := by injection he
        have hik : i = k := by injection he with h1' h2'
        have herr : err = env.eqError k := by injection he with h1' h2' h3'
        have htol : tol = cfg.bootstrapTolerance := by injection he with h1' h2' h3' h4'
        subst hik
        refine ⟨htol, ?_, ?_, ?_, ?_⟩
        · rw [herr]; exact not_lt.mp hge
        · intro hcon; rw [hst] at hcon; exact AssetStage.noConfusion hcon
        · intro _; exact ⟨q, hget, hns, hbt, herr⟩
        · intro hcon; rw [hst] at hcon; exact AssetStage.noConfusion hcon
      · have h' : (infCalPhase cfg.bootstrapTolerance env cfg.infConfigs 0).2.2 =
            some (BuildError.calibrationTolerance st i err tol) := hc
        rcases infCalPhase_fail_some _ _ _ _ _ h' with ⟨k, d, hget, hfail⟩
        rcases infFactorFail_some _ _ _ _ _ hfail with ⟨hns, hbt, hge, he⟩
        rw [show (0 : Nat) + k = k from Nat.zero_add k] at he hge
        have hst : st = AssetStage.inf := by injection he
        have hik : i = k := by injection he with h1' h2'
        have herr : err = env.infError k := by injection he with h1' h2' h3'
        have htol : tol = cfg.bootstrapTolerance := by injection he with h1' h2' h3' h4'
        subst hik
        refine ⟨htol, ?_, ?_, ?_, ?_⟩
        · rw [herr]; exact not_lt.mp hge
        · intro hcon; rw [hst] at hcon; exact AssetStage.noConfusion hcon
        · intro hcon; rw [hst] at hcon; exact AssetStage.noConfusion hcon
        · intro _; exact ⟨d, hget, hns, hbt, herr⟩
    · exfalso
      by_cases h0 : cfg.irConfigs.length = 0
      · simp [buildModel, h0] at h
      · simp [buildModel, h0, h1] at h
  · intro out tr h
    obtain ⟨-, -, -, -, hfxC, heqC, hinfC, hout, -⟩ := buildModel_ok_inv cfg env out tr h
    refine ⟨by rw [hout], ?_, ?_, ?_⟩
    · intro i fx hget hns hbt
      have h' : (fxCalPhase cfg.bootstrapTolerance env cfg.fxConfigs 0).2.2 = Option.none := hfxC
      have := (fxCalPhase_fail_none_iff _ _ _ _).mp h' i fx hget
      have := (fxFactorFail_none_iff _ _ _ _).mp this hns hbt
      simpa using this
    · intro i q hget hns hbt
      have h' : (eqCalPhase cfg.bootstrapTolerance env cfg.eqConfigs 0).2.2 = Option.none := heqC
      have := (eqCalPhase_fail_none_iff _ _ _ _).mp h' i q hget
      have := (eqFactorFail_none_iff _ _ _ _).mp this hns hbt
      simpa using this
    · intro i d hget hns hbt
      have h' : (infCalPhase cfg.bootstrapTolerance env cfg.infConfigs 0).2.2 = Option.none := hinfC
      have := (infCalPhase_fail_none_iff _ _ _ _).mp h' i d hget
      have := (infFactorFail_none_iff _ _ _ _).mp this hns hbt
      simpa using this

/-- Residual environment whose FX calibration error is 2, breaching a
tolerance of 1. -/
def envFxTwo : MarketEnv := ⟨fun _ => 0, fun _ => 2, fun _ => 0, fun _ => 0⟩

/-- Witness for the C2 tolerance gate at a concrete breaching build. -/
theorem bootstrapToleranceGate_app :
    (1 : ℚ) = cfgTwoCcy.bootstrapTolerance ∧ |(2 : ℚ)| ≥ cfgTwoCcy.bootstrapTolerance ∧
    (AssetStage.fx = AssetStage.fx → ∃ fx : FxBsData, cfgTwoCcy.fxConfigs[0]? = some fx ∧
      ¬ fxSkip fx ∧ fx.calibrationType = CalibrationType.bootstrap ∧
      (2 : ℚ) = envFxTwo.fxError 0) ∧
    (AssetStage.fx = AssetStage.eq → ∃ q : EqBsData, cfgTwoCcy.eqConfigs[0]? = some q ∧
      ¬ eqSkip q ∧ q.calibrationType = CalibrationType.bootstrap ∧
      (2 : ℚ) = envFxTwo.eqError 0) ∧
    (AssetStage.fx = AssetStage.inf → ∃ d : InfDkData, cfgTwoCcy.infConfigs[0]? = some d ∧
      ¬ infSkip d ∧ d.calibrationType = CalibrationType.bootstrap ∧
      (2 : ℚ) = envFxTwo.infError 0) :=
  (bootstrapToleranceGate cfgTwoCcy envFxTwo).1 AssetStage.fx 0 2 1 (by rfl)

/-- **C3**: a successful build performs its steps in the fixed cascade
order — rate sub-model construction (self-calibrating), then FX, equity
and inflation sub-model construction, correlation-matrix assembly, joint
model construction, rate calibration-error collection, relink of every
rate discount curve to the FX-calibration configuration, FX calibration,
relink to the equity-calibration configuration, equity calibration, relink
to the final-model configuration, inflation calibration, a final relink
again to the final-model configuration (idempotent: no relink ever uses
the inflation-calibration configuration, the pre-inflation relink already
using the final-model one), and an explicit model-cache refresh as the
very last step. -/
theorem buildCascadeOrder (cfg : CrossAssetModelData) (env : MarketEnv)
    (out : BuildOutput) (tr : List BuildEvent)
    (h : buildModel cfg env = (Except.ok out, tr)) :
    tr = irBuildEvents cfg.irConfigs.length ++ (fxBuildResult cfg).1 ++ (eqBuildResult cfg).1 ++
      infBuildEvents cfg.infConfigs.length ++
      [BuildEvent.assembleCorrelationMatrix, BuildEvent.constructModel] ++
      recordIrEvents cfg.irConfigs.length ++
      relinkEvents cfg.irConfigs.length CfgLabel.fxCalibration ++ (fxCalResult cfg env).1 ++
      relinkEvents cfg.irConfigs.length CfgLabel.eqCalibration ++ (eqCalResult cfg env).1 ++
      relinkEvents cfg.irConfigs.length CfgLabel.finalModel ++ (infCalResult cfg env).1 ++
      relinkEvents cfg.irConfigs.length CfgLabel.finalModel ++ [BuildEvent.modelUpdate] ∧
    tr.getLast? = some BuildEvent.modelUpdate ∧
    (∀ k, BuildEvent.relinkDiscountCurve k CfgLabel.infCalibration ∉ tr) := by
  obtain ⟨-, -, -, -, hfxC, heqC, hinfC, -, htr⟩ := buildModel_ok_inv cfg env out tr h
  refine ⟨htr, ?_, ?_⟩
  · rw [htr]
    rw [List.getLast?_concat]
  · intro k hmem
    rw [htr] at hmem
    simp only [List.append_assoc, List.mem_append] at hmem
    rcases hmem with hm | hm | hm | hm | hm | hm | hm | hm | hm | hm | hm | hm | hm | hm
    · rcases mem_irBuildEvents hm with ⟨k', hk⟩
      exact BuildEvent.noConfusion hk
    · rcases fxBuildPhase_events_shape _ _ _ _ _ hm with ⟨k', hk⟩
      exact BuildEvent.noConfusion hk
    · rcases eqBuildPhase_events_shape _ _ _ _ hm with ⟨k', hk⟩
      exact BuildEvent.noConfusion hk
    · rcases mem_infBuildEvents hm with ⟨k', hk⟩
      exact BuildEvent.noConfusion hk
    · simp at hm
    · rcases mem_recordIrEvents hm with ⟨k', hk⟩
      exact BuildEvent.noConfusion hk
    · rcases mem_relinkEvents hm with ⟨k', hk⟩
      injection hk with h1 h2
      exact CfgLabel.noConfusion h2
    · have h' : (fxCalPhase cfg.bootstrapTolerance env cfg.fxConfigs 0).2.2 = Option.none := hfxC
      rcases ((fxCalPhase_events_of_none _ _ _ _ h') _).mp hm with ⟨i, fx, -, hfm⟩
      rcases fxFactorEvents_shape _ _ _ hfm with hk | hk | hk | hk | hk <;>
        exact BuildEvent.noConfusion hk
    · rcases mem_relinkEvents hm with ⟨k', hk⟩
      injection hk with h1 h2
      exact CfgLabel.noConfusion h2
    · have h' : (eqCalPhase cfg.bootstrapTolerance env cfg.eqConfigs 0).2.2 = Option.none := heqC
      rcases ((eqCalPhase_events_of_none _ _ _ _ h') _).mp hm with ⟨i, q, -, hfm⟩
      rcases eqFactorEvents_shape _ _ _ hfm with hk | hk | hk | hk | hk <;>
        exact BuildEvent.noConfusion hk
    · rcases mem_relinkEvents hm with ⟨k', hk⟩
      injection hk with h1 h2
      exact CfgLabel.noConfusion h2
    · have h' : (infCalPhase cfg.bootstrapTolerance env cfg.infConfigs 0).2.2 = Option.none := hinfC
      rcases ((infCalPhase_events_of_none _ _ _ _ h') _).mp hm with ⟨i, d, -, hfm⟩
      rcases infFactorEvents_shape _ _ _ hfm with hk | hk | hk | hk | hk | hk | hk | hk <;>
        exact BuildEvent.noConfusion hk
    · rcases mem_relinkEvents hm with ⟨k', hk⟩
      injection hk with h1 h2
      exact CfgLabel.noConfusion h2
    · simp at hm

/-- A minimal one-currency configuration used to instantiate the cascade
order theorem. -/
def cfgOneCcy : CrossAssetModelData := ⟨[⟨"EUR"⟩], [], [], [], 1⟩

/-- Witness for the C3 cascade order at a concrete successful build. -/
theorem buildCascadeOrder_app :
    [BuildEvent.buildIr 0, BuildEvent.assembleCorrelationMatrix, BuildEvent.constructModel,
     BuildEvent.recordIrError 0, BuildEvent.relinkDiscountCurve 0 CfgLabel.fxCalibration,
     BuildEvent.relinkDiscountCurve 0 CfgLabel.eqCalibration,
     BuildEvent.relinkDiscountCurve 0 CfgLabel.finalModel,
     BuildEvent.relinkDiscountCurve 0 CfgLabel.finalModel, BuildEvent.modelUpdate] =
      irBuildEvents cfgOneCcy.irConfigs.length ++ (fxBuildResult cfgOneCcy).1 ++
      (eqBuildResult cfgOneCcy).1 ++ infBuildEvents cfgOneCcy.infConfigs.length ++
      [BuildEvent.assembleCorrelationMatrix, BuildEvent.constructModel] ++
      recordIrEvents cfgOneCcy.irConfigs.length ++
      relinkEvents cfgOneCcy.irConfigs.length CfgLabel.fxCalibration ++
      (fxCalResult cfgOneCcy envZero).1 ++
      relinkEvents cfgOneCcy.irConfigs.length CfgLabel.eqCalibration ++
      (eqCalResult cfgOneCcy envZero).1 ++
      relinkEvents cfgOneCcy.irConfigs.length CfgLabel.finalModel ++
      (infCalResult cfgOneCcy envZero).1 ++
      relinkEvents cfgOneCcy.irConfigs.length CfgLabel.finalModel ++ [BuildEvent.modelUpdate] ∧
    List.getLast? [BuildEvent.buildIr 0, BuildEvent.assembleCorrelationMatrix,
      BuildEvent.constructModel, BuildEvent.recordIrError 0,
      BuildEvent.relinkDiscountCurve 0 CfgLabel.fxCalibration,
      BuildEvent.relinkDiscountCurve 0 CfgLabel.eqCalibration,
      BuildEvent.relinkDiscountCurve 0 CfgLabel.finalModel,
      BuildEvent.relinkDiscountCurve 0 CfgLabel.finalModel, BuildEvent.modelUpdate] =
      some BuildEvent.modelUpdate ∧
    (∀ k, BuildEvent.relinkDiscountCurve k CfgLabel.infCalibration ∉
      [BuildEvent.buildIr 0, BuildEvent.assembleCorrelationMatrix, BuildEvent.constructModel,
       BuildEvent.recordIrError 0, BuildEvent.relinkDiscountCurve 0 CfgLabel.fxCalibration,
       BuildEvent.relinkDiscountCurve 0 CfgLabel.eqCalibration,
       BuildEvent.relinkDiscountCurve 0 CfgLabel.finalModel,
       BuildEvent.relinkDiscountCurve 0 CfgLabel.finalModel, BuildEvent.modelUpdate]) :=
  buildCascadeOrder cfgOneCcy envZero
    { swaptionCalibrationErrors := [some 0], fxOptionCalibrationErrors := [],
      eqOptionCalibrationErrors := [], infCapFloorCalibrationErrors := [] } _ (by rfl)

/-- **C4**: recomputation is pull-based.  The public accessors (the model
handle and the four calibration-error vectors) all route through
`performCalculations`; an access rebuilds — resetting the observer,
unregistering from the sub-builders, re-running the build sequence and
re-registering, in that order — if and only if some sub-builder reports
that it requires recalibration or the market observer reports a change;
otherwise the state, hence the cached model and every error vector, is
returned unchanged and no build, unregistration or registration action
occurs. -/
theorem pullBasedRecalculation (env : RebuildEnv) (s : BuilderState) :
    (RecalcAction.runBuild ∈ (performCalculations env s).2 ↔
      ((∃ b ∈ s.subDirty, b = true) ∨ s.observerUpdated = true)) ∧
    (requiresRecalibration s = false →
      performCalculations env s = (s, [RecalcAction.queryObserver false]) ∧
      model env s = (s.cachedModel, s) ∧
      swaptionCalibrationErrors env s = (s.cachedOutput.swaptionCalibrationErrors, s) ∧
      fxOptionCalibrationErrors env s = (s.cachedOutput.fxOptionCalibrationErrors, s) ∧
      eqOptionCalibrationErrors env s = (s.cachedOutput.eqOptionCalibrationErrors, s) ∧
      infCapFloorCalibrationErrors env s = (s.cachedOutput.infCapFloorCalibrationErrors, s)) ∧
    (requiresRecalibration s = true →
      (performCalculations env s).2 =
        staleCheckQueries s ++
          [RecalcAction.queryObserver true, RecalcAction.unregisterAll,
           RecalcAction.runBuild, RecalcAction.registerAll] ∧
      (performCalculations env s).1.cachedOutput = env.buildOutputAt s.buildCount ∧
      (performCalculations env s).1.cachedModel = s.buildCount + 1 ∧
      (performCalculations env s).1.buildCount = s.buildCount + 1) := by
  refine ⟨?_, ?_, ?_⟩
  · unfold performCalculations
    by_cases h : requiresRecalibration s
    · rw [if_pos h]
      simp only [List.mem_append]
      constructor
      · intro _
        unfold requiresRecalibration at h
        rcases Bool.or_eq_true_iff.mp h with h' | h'
        · left
          simpa using List.any_eq_true.mp h'
        · right; exact h'
      · intro _; right; simp
    · rw [if_neg h]
      constructor
      · intro hm
        exfalso
        unfold staleCheckQueries at hm
        by_cases hA : s.subDirty.any id = true <;> simp [hA] at hm
      · intro hd
        exfalso
        apply h
        unfold requiresRecalibration
        rcases hd with ⟨b, hb, hbt⟩ | hd
        · exact Bool.or_eq_true_iff.mpr (Or.inl (List.any_eq_true.mpr ⟨b, hb, hbt⟩))
        · exact Bool.or_eq_true_iff.mpr (Or.inr hd)
  · intro h
    have hp : performCalculations env s = (s, [RecalcAction.queryObserver false]) := by
      unfold performCalculations
      rw [if_neg (by simp [h])]
      unfold staleCheckQueries
      have hA : s.subDirty.any id = false := by
        unfold requiresRecalibration at h
        exact (Bool.or_eq_false_iff.mp h).1
      rw [if_neg (by simp [hA])]
    exact ⟨hp, by simp [model, hp], by simp [swaptionCalibrationErrors, hp],
      by simp [fxOptionCalibrationErrors, hp], by simp [eqOptionCalibrationErrors, hp],
      by simp [infCapFloorCalibrationErrors, hp]⟩
  · intro h
    unfold performCalculations
    rw [if_pos h]
    exact ⟨rfl, rfl, rfl, rfl⟩

/-- A stale builder state: one dirty sub-builder, observer untouched. -/
def stDirty : BuilderState := ⟨[true], false, 0, 0, ⟨[], [], [], []⟩⟩

/-- A rebuild environment producing empty outputs with one sub-builder. -/
def envRb : RebuildEnv := ⟨fun _ => ⟨[], [], [], []⟩, fun _ => 1⟩

/-- Witness for the C4 pull-based recalculation at a concrete stale
state. -/
theorem pullBasedRecalculation_app :
    (performCalculations envRb stDirty).2 =
      staleCheckQueries stDirty ++
        [RecalcAction.queryObserver true, RecalcAction.unregisterAll,
         RecalcAction.runBuild, RecalcAction.registerAll] ∧
    (performCalculations envRb stDirty).1.cachedOutput = envRb.buildOutputAt stDirty.buildCount ∧
    (performCalculations envRb stDirty).1.cachedModel = stDirty.buildCount + 1 ∧
    (performCalculations envRb stDirty).1.buildCount = stDirty.buildCount + 1 :=
  (pullBasedRecalculation envRb stDirty).2.2 (by decide)

/-- **C5**: invoking the rebuild sequence twice with no intervening change
is idempotent: the second invocation finds nothing stale, so it leaves the
state — the model handle and every calibration-error vector — unchanged
and performs no build at all, merely querying the observer once without
resetting. -/
theorem rebuildIdempotent (env : RebuildEnv) (s : BuilderState) :
    performCalculations env (performCalculations env s).1 =
      ((performCalculations env s).1, [RecalcAction.queryObserver false]) ∧
    RecalcAction.runBuild ∉ (performCalculations env (performCalculations env s).1).2 := by
  have hclean := requiresRecalibration_after env s
  have hmain : performCalculations env (performCalculations env s).1 =
      ((performCalculations env s).1, [RecalcAction.queryObserver false]) := by
    generalize hs' : (performCalculations env s).1 = s' at hclean ⊢
    unfold performCalculations
    rw [if_neg (by simp [hclean])]
    unfold requiresRecalibration at hclean
    have hA : s'.subDirty.any id = false := (Bool.or_eq_false_iff.mp hclean).1
    unfold staleCheckQueries
    rw [if_neg (by simp [hA])]
  refine ⟨hmain, ?_⟩
  rw [hmain]
  simp

/-- A builder state in which no sub-builder is dirty but the market
observer has recorded a correlation-quote change. -/
def stObserverOnly : BuilderState := ⟨[false], true, 0, 0, ⟨[], [], [], []⟩⟩

/-- **C6 counterexample**: on a rebuild decision triggered by the market
observer alone (no dirty sub-builder), the observer is queried twice —
once without reset by `requiresRecalibration` (line 111) and once with
reset by `performCalculations` (line 119) — so "queried exactly once per
rebuild decision" is false. -/
theorem observerDoubleQuery :
    observerQueryCount (performCalculations envRb stObserverOnly).2 = 2 ∧ (2 : Nat) ≠ 1 := by
  constructor
  · rfl
  · decide

/-- **C6 (amended)**: per rebuild decision the market observer is queried
once when a sub-builder is already stale (that single query resetting the
flag) and once when nothing has changed (without reset), but twice — first
without reset by the staleness check, then with reset — when the observer
alone reports a change; the flag is reset exactly when a rebuild occurs,
and after any decision the flag is consumed, so a subsequent decision with
no new quote change reports no change. -/
theorem observerQueryDiscipline (env : RebuildEnv) (s : BuilderState) :
    observerQueryCount (performCalculations env s).2 =
      (if s.subDirty.any id then 1 else if s.observerUpdated then 2 else 1) ∧
    (RecalcAction.queryObserver true ∈ (performCalculations env s).2 ↔
      requiresRecalibration s = true) ∧
    (performCalculations env s).1.observerUpdated = false ∧
    requiresRecalibration (performCalculations env s).1 = false := by
  refine ⟨?_, ?_, ?_, requiresRecalibration_after env s⟩
  · unfold performCalculations staleCheckQueries requiresRecalibration
    by_cases hA : s.subDirty.any id = true
    · simp [hA, observerQueryCount]
    · by_cases hO : s.observerUpdated = true
      · simp only [Bool.not_eq_true] at hA
        simp [hA, hO, observerQueryCount]
      · simp only [Bool.not_eq_true] at hA hO
        simp [hA, hO, observerQueryCount]
  · unfold performCalculations
    by_cases h : requiresRecalibration s
    · rw [if_pos h]
      simp [h]
    · rw [if_neg h]
      simp only [Bool.not_eq_true] at h
      rw [h]
      unfold staleCheckQueries
      by_cases hA : s.subDirty.any id = true <;> simp [hA]
  · unfold performCalculations
    by_cases h : requiresRecalibration s
    · rw [if_pos h]
    · rw [if_neg h]
      simp only [Bool.not_eq_true] at h
      unfold requiresRecalibration at h
      exact (Bool.or_eq_false_iff.mp h).2

/-- A configuration with one equity factor whose calibration type is None
but whose sigma fitting is requested. -/
def cfgEqNone : CrossAssetModelData :=
  ⟨[⟨"EUR"⟩], [], [⟨"SP5", "EUR", CalibrationType.none, true, ParamType.piecewise⟩], [], 1⟩

/-- **C9 counterexample**: an equity factor with calibration type None but
`calibrateSigma = true` is *not* skipped — the equity loop (line 357)
checks only `!calibrateSigma()`, never the calibration type — so a global
calibration runs, an engine is attached and the error entry is written,
contradicting "skipped entirely if its calibration type is None or its
configuration does not request fitting". -/
theorem equityNoneCalibrated :
    (∃ q : EqBsData, cfgEqNone.eqConfigs[0]? = some q ∧
      q.calibrationType = CalibrationType.none) ∧
    BuildEvent.calibrateGlobal AssetStage.eq 0 ∈ (buildModel cfgEqNone envZero).2 ∧
    BuildEvent.attachEngine AssetStage.eq 0 ∈ (buildModel cfgEqNone envZero).2 ∧
    BuildEvent.skipCalibration AssetStage.eq 0 ∉ (buildModel cfgEqNone envZero).2 ∧
    (buildModel cfgEqNone envZero).1 =
      Except.ok { swaptionCalibrationErrors := [some 0], fxOptionCalibrationErrors := [],
                  eqOptionCalibrationErrors := [some 0], infCapFloorCalibrationErrors := [] } := by
  refine ⟨⟨⟨"SP5", "EUR", CalibrationType.none, true, ParamType.piecewise⟩, rfl, rfl⟩,
    ?_, ?_, ?_, rfl⟩ <;> decide

/-- **C9 (amended)**: in the calibration loops, an FX factor is skipped
(no engine attached, no calibration run, its error entry not written) iff
its calibration type is None or sigma fitting is not requested, and an
inflation factor iff neither volatility nor reversion fitting is requested
or its calibration type is None; an equity factor however is skipped iff
sigma fitting is not requested — calibration type None alone does not skip
an equity factor.  For FX and equity, iterative (bootstrap) calibration is
invoked exactly when the calibration type is Bootstrap and the sigma
time-shape is Piecewise, every other non-skipped combination invoking
global calibration.  For inflation, the same dispatch applies separately
to the volatility-only and reversion-only modes, while a factor fitting
both parameters always gets the single joint fit regardless of type and
time-shape.  The bootstrap tolerance gate fires for every non-skipped
factor of Bootstrap calibration type whose error is not strictly below the
tolerance. -/
theorem calibrationDispatch (tol : ℚ) (env : MarketEnv) :
    (∀ (fxs : List FxBsData) (j : Nat), (fxCalPhase tol env fxs j).2.2 = Option.none →
      ∀ (i : Nat) (fx : FxBsData), fxs[i]? = some fx →
        (BuildEvent.skipCalibration AssetStage.fx (j + i) ∈ (fxCalPhase tol env fxs j).1 ↔
          fxSkip fx) ∧
        (BuildEvent.attachEngine AssetStage.fx (j + i) ∈ (fxCalPhase tol env fxs j).1 ↔
          ¬ fxSkip fx) ∧
        (BuildEvent.calibrateIterative AssetStage.fx (j + i) ∈ (fxCalPhase tol env fxs j).1 ↔
          (¬ fxSkip fx ∧ fxIterativeCond fx)) ∧
        (BuildEvent.calibrateGlobal AssetStage.fx (j + i) ∈ (fxCalPhase tol env fxs j).1 ↔
          (¬ fxSkip fx ∧ ¬ fxIterativeCond fx)) ∧
        (fxCalPhase tol env fxs j).2.1[i]? = some (fxFactorErrEntry env fx (j + i))) ∧
    (∀ (fxs : List FxBsData) (j i : Nat) (fx : FxBsData), fxs[i]? = some fx → ¬ fxSkip fx →
      fx.calibrationType = CalibrationType.bootstrap → ¬(|env.fxError (j + i)| < tol) →
      (fxCalPhase tol env fxs j).2.2 ≠ Option.none) ∧
    (∀ (eqs : List EqBsData) (j : Nat), (eqCalPhase tol env eqs j).2.2 = Option.none →
      ∀ (i : Nat) (q : EqBsData), eqs[i]? = some q →
        (BuildEvent.skipCalibration AssetStage.eq (j + i) ∈ (eqCalPhase tol env eqs j).1 ↔
          eqSkip q) ∧
        (BuildEvent.attachEngine AssetStage.eq (j + i) ∈ (eqCalPhase tol env eqs j).1 ↔
          ¬ eqSkip q) ∧
        (BuildEvent.calibrateIterative AssetStage.eq (j + i) ∈ (eqCalPhase tol env eqs j).1 ↔
          (¬ eqSkip q ∧ eqIterativeCond q)) ∧
        (BuildEvent.calibrateGlobal AssetStage.eq (j + i) ∈ (eqCalPhase tol env eqs j).1 ↔
          (¬ eqSkip q ∧ ¬ eqIterativeCond q)) ∧
        (eqCalPhase tol env eqs j).2.1[i]? = some (eqFactorErrEntry env q (j + i))) ∧
    (∀ (eqs : List EqBsData) (j i : Nat) (q : EqBsData), eqs[i]? = some q → ¬ eqSkip q →
      q.calibrationType = CalibrationType.bootstrap → ¬(|env.eqError (j + i)| < tol) →
      (eqCalPhase tol env eqs j).2.2 ≠ Option.none) ∧
    (∀ (ds : List InfDkData) (j : Nat), (infCalPhase tol env ds j).2.2 = Option.none →
      ∀ (i : Nat) (d : InfDkData), ds[i]? = some d →
        (BuildEvent.skipCalibration AssetStage.inf (j + i) ∈ (infCalPhase tol env ds j).1 ↔
          infSkip d) ∧
        (BuildEvent.attachEngine AssetStage.inf (j + i) ∈ (infCalPhase tol env ds j).1 ↔
          ¬ infSkip d) ∧
        (BuildEvent.calibrateIterative AssetStage.inf (j + i) ∈ (infCalPhase tol env ds j).1 ↔
          (¬ infSkip d ∧ infVolOnly d ∧ infVolIterCond d)) ∧
        (BuildEvent.calibrateGlobal AssetStage.inf (j + i) ∈ (infCalPhase tol env ds j).1 ↔
          (¬ infSkip d ∧ infVolOnly d ∧ ¬ infVolIterCond d)) ∧
        (BuildEvent.calibrateRevIterative (j + i) ∈ (infCalPhase tol env ds j).1 ↔
          (¬ infSkip d ∧ infRevOnly d ∧ infRevIterCond d)) ∧
        (BuildEvent.calibrateRevGlobal (j + i) ∈ (infCalPhase tol env ds j).1 ↔
          (¬ infSkip d ∧ infRevOnly d ∧ ¬ infRevIterCond d)) ∧
        (BuildEvent.calibrateJoint (j + i) ∈ (infCalPhase tol env ds j).1 ↔
          (¬ infSkip d ∧ d.calibrateA = true ∧ d.calibrateH = true)) ∧
        (infCalPhase tol env ds j).2.1[i]? = some (infFactorErrEntry env d (j + i))) ∧
    (∀ (ds : List InfDkData) (j i : Nat) (d : InfDkData), ds[i]? = some d → ¬ infSkip d →
      d.calibrationType = CalibrationType.bootstrap → ¬(|env.infError (j + i)| < tol) →
      (infCalPhase tol env ds j).2.2 ≠ Option.none) := by
  refine ⟨?_, ?_, ?_, ?_, ?_, ?_⟩
  · intro fxs j hnone i fx hget
    obtain ⟨h1, h2, h3, h4⟩ := fxCalPhase_factor_behavior tol env fxs j hnone i fx hget
    exact ⟨h1, h2, h3, h4, (fxCalPhase_errs_of_none tol env fxs j hnone).2 i fx hget⟩
  · intro fxs j i fx hget hns hbt hnl hnone
    exact hnl ((fxFactorFail_none_iff _ _ _ _).mp
      ((fxCalPhase_fail_none_iff _ _ _ _).mp hnone i fx hget) hns hbt)
  · intro eqs j hnone i q hget
    obtain ⟨h1, h2, h3, h4⟩ := eqCalPhase_factor_behavior tol env eqs j hnone i q hget
    exact ⟨h1, h2, h3, h4, (eqCalPhase_errs_of_none tol env eqs j hnone).2 i q hget⟩
  · intro eqs j i q hget hns hbt hnl hnone
    exact hnl ((eqFactorFail_none_iff _ _ _ _).mp
      ((eqCalPhase_fail_none_iff _ _ _ _).mp hnone i q hget) hns hbt)
  · intro ds j hnone i d hget
    obtain ⟨h1, h2, h3, h4, h5, h6, h7⟩ := infCalPhase_factor_behavior tol env ds j hnone i d hget
    exact ⟨h1, h2, h3, h4, h5, h6, h7, (infCalPhase_errs_of_none tol env ds j hnone).2 i d hget⟩
  · intro ds j i d hget hns hbt hnl hnone
    exact hnl ((infFactorFail_none_iff _ _ _ _).mp
      ((infCalPhase_fail_none_iff _ _ _ _).mp hnone i d hget) hns hbt)

/-- A single equity factor in global (BestFit) calibration mode. -/
def eqBestFit : EqBsData := ⟨"SP5", "EUR", CalibrationType.bestFit, true, ParamType.constant⟩

/-- Witness for the C9 dispatch characterization on a concrete one-factor
equity stage. -/
theorem calibrationDispatch_app :
    (BuildEvent.skipCalibration AssetStage.eq 0 ∈ (eqCalPhase 1 envZero [eqBestFit] 0).1 ↔
      eqSkip eqBestFit) ∧
    (BuildEvent.attachEngine AssetStage.eq 0 ∈ (eqCalPhase 1 envZero [eqBestFit] 0).1 ↔
      ¬ eqSkip eqBestFit) ∧
    (BuildEvent.calibrateIterative AssetStage.eq 0 ∈ (eqCalPhase 1 envZero [eqBestFit] 0).1 ↔
      (¬ eqSkip eqBestFit ∧ eqIterativeCond eqBestFit)) ∧
    (BuildEvent.calibrateGlobal AssetStage.eq 0 ∈ (eqCalPhase 1 envZero [eqBestFit] 0).1 ↔
      (¬ eqSkip eqBestFit ∧ ¬ eqIterativeCond eqBestFit)) ∧
    (eqCalPhase 1 envZero [eqBestFit] 0).2.1[0]? = some (eqFactorErrEntry envZero eqBestFit 0) :=
  (calibrationDispatch 1 envZero).2.2.1 [eqBestFit] 0 (by rfl) 0 eqBestFit (by rfl)

end Engine
